import Mathlib

/-!
Verification of the OFAC SDN Advanced XML parser/flattener of
keithrozario/gastown_sanctions_cli.

The repository carries the parser twice: as the module
src/dataflow/xml_parser.py, and inlined inside src/dataflow/pipeline.py
("Inlined XML parser (avoids Dataflow module distribution issues)").
Nothing in the repository imports xml_parser.py; the deployed path is
cloud_function/main.py, which launches the Dataflow Flex Template running
pipeline.py, so the inlined copy in pipeline.py is the parser that runs.
The two copies have diverged (sanctions-program extraction, the
PartySubType cross-reference, the EntryEvent legal-basis path, the
sdn_type fallback).  The specification matches pipeline.py throughout
(it adopts the pipeline's ProfileID-as-attribute reading in section 4.4,
its lstrip-based address suffix rule in 4.2, its clean_record collapse
in 4.9, and in section 9 it explicitly adopts the EntryEvent path), so
this development embeds the inlined parser of src/dataflow/pipeline.py.
Line references below are into that file.

Modelling conventions:
  - XML elements are a tree of (tag, attributes, text, children); the
    namespace stripping done by _local_tag (pipeline.py lines 69-70) is
    applied upstream, so tags in the model are already local names
    (spec section 6: namespaces are ignored, only local names matter).
  - Python dicts that are only built by keyed insertion and read by get
    are association lists with update-or-append insertion, so keys stay
    unique and lookup is the first match.
  - Python str.strip / str.lower / "x in y" / str.zfill / int() are
    re-implemented over character lists so that the kernel can evaluate
    them (String.trim and friends do not reduce); int() is modelled for
    an optional ASCII sign plus ASCII digits, which covers every value
    exercised here.
-/

/-- Python str.strip on a character list: drop whitespace on both ends. -/
def pyStripL (l : List Char) : List Char :=
  ((l.dropWhile Char.isWhitespace).reverse.dropWhile Char.isWhitespace).reverse

/-- Python str.strip. -/
def pyStrip (s : String) : String := String.mk (pyStripL s.data)

/-- Python str.lower (ASCII case folding; the inputs exercised are ASCII). -/
def pyLower (s : String) : String := String.mk (s.data.map Char.toLower)

/-- Does the second list occur as a prefix of the first? -/
def prefixOfL : List Char → List Char → Bool
  | _, [] => true
  | [], _ :: _ => false
  | a :: as, b :: bs => a = b && prefixOfL as bs

/-- Does needle occur as a contiguous sublist of hay? -/
def containsL (needle : List Char) : List Char → Bool
  | [] => prefixOfL [] needle
  | c :: rest => prefixOfL (c :: rest) needle || containsL needle rest

/-- Python substring test: needle in hay. -/
def pyContains (hay needle : String) : Bool := containsL needle.data hay.data

/-- Python str.lstrip applied with the character set comma-and-space,
as in pipeline.py line 190. -/
def lstripCommaSpace (s : String) : String :=
  String.mk (s.data.dropWhile (fun c => c = (',') ∨ c = (' ')))

/-- Python str.zfill(2): left-pad with zeros to width 2, keeping a
leading sign in front of the padding. -/
def zfill2 (s : String) : String :=
  if 2 ≤ s.data.length then s
  else match s.data with
    | [] => ("00")
    | [c] => if c = ('-') ∨ c = ('+') then String.mk [c, ('0')] else String.mk [('0'), c]
    | _ => s

/-- Python int(s) for base 10: optional surrounding whitespace, optional
single sign, ASCII digits; none when that shape is not met (the source
lets the ValueError abort the parse). -/
def pyInt (s : String) : Option Int :=
  let t := pyStripL s.data
  let core := match t with
    | ('-') :: rest => rest
    | ('+') :: rest => rest
    | l => l
  if core ≠ [] ∧ core.all (fun c => c.isDigit) then
    let n : Nat := core.foldl (fun a c => a * 10 + (c.toNat - 48)) 0
    some (match t with
      | ('-') :: _ => -(n : Int)
      | _ => (n : Int))
  else none

/-- Lookup in an association list (keys are unique by construction, so
first match is the binding). -/
def dlookup {α : Type} (d : List (String × α)) (k : String) : Option α :=
  (d.find? (fun p => p.1 = k)).map (fun p => p.2)

/-- Key membership in an association list. -/
def dmem {α : Type} (d : List (String × α)) (k : String) : Bool :=
  d.any (fun p => p.1 = k)

/-- Python dict assignment d[k] = v: overwrite in place when the key is
present, append otherwise (Python dicts keep insertion order and keep a
key's position on overwrite). -/
def dinsert {α : Type} (d : List (String × α)) (k : String) (v : α) : List (String × α) :=
  if dmem d k then d.map (fun p => if p.1 = k then (k, v) else p) else d ++ [(k, v)]

/-- An XML element: local tag name, attributes, text, children (the
shape consumed through xml.etree.ElementTree in the source). -/
inductive Xml where
  | mk (tag : String) (attrs : List (String × String)) (text : String) (children : List Xml)

/-- The element's local tag name. -/
def Xml.tag : Xml → String
  | .mk t _ _ _ => t

/-- The element's attribute list. -/
def Xml.attrs : Xml → List (String × String)
  | .mk _ a _ _ => a

/-- The element's text (ElementTree .text, with None read as ""). -/
def Xml.text : Xml → String
  | .mk _ _ t _ => t

/-- The element's children in document order. -/
def Xml.children : Xml → List Xml
  | .mk _ _ _ c => c

/-- ElementTree elem.get(k): the attribute's value, or none. -/
def Xml.attr (x : Xml) (k : String) : Option String :=
  (x.attrs.find? (fun p => p.1 = k)).map (fun p => p.2)

/-- ElementTree elem.get(k, d): the attribute's value, or the default. -/
def Xml.attrD (x : Xml) (k d : String) : String := (x.attr k).getD d

/-- _iter_tag (pipeline.py lines 73-76): children with a given tag. -/
def iter_tag (x : Xml) (name : String) : List Xml :=
  x.children.filter (fun c => c.tag = name)

/-- _find_tag (pipeline.py lines 79-83): first child with a given tag. -/
def find_tag (x : Xml) (name : String) : Option Xml :=
  x.children.find? (fun c => c.tag = name)

/-- A reference lookup table, id to text. -/
abbrev RefMap := List (String × String)

/-- OFAC_SOURCE_URL (pipeline.py lines 42-45). -/
def OFAC_SOURCE_URL : String :=
  ("https://sanctionslistservice.ofac.treas.gov/api/PublicationPreview/exports/SDN_ADVANCED.XML")

/-- NAME_PART_ORDER (pipeline.py lines 47-51): sort keys for name parts. -/
def NAME_PART_ORDER : List (String × Nat) :=
  [(("last name"), 0), (("last"), 0), (("entity name"), 0), (("vessel name"), 0),
   (("aircraft name"), 0), (("first name"), 1), (("first"), 1), (("middle name"), 2),
   (("middle"), 2), (("patronymic"), 3), (("matronymic"), 4)]

/-- VESSEL_FEATURES (pipeline.py lines 53-58), an ordered table: the
first key contained in the feature-type name wins. -/
def VESSEL_FEATURES : List (String × String) :=
  [(("vessel call sign"), ("vessel_call_sign")), (("vessel type"), ("vessel_type")),
   (("vessel tonnage"), ("vessel_tonnage")), (("gross registered tonnage"), ("vessel_grt")),
   (("vessel flag"), ("vessel_flag")), (("vessel owner"), ("vessel_owner")),
   (("mmsi"), ("vessel_mmsi")), (("imo"), ("vessel_imo"))]

/-- AIRCRAFT_FEATURES (pipeline.py lines 60-66), an ordered table. -/
def AIRCRAFT_FEATURES : List (String × String) :=
  [(("aircraft construction number"), ("aircraft_serial")),
   (("aircraft manufacturer\x27s serial number"), ("aircraft_serial")),
   (("aircraft model"), ("aircraft_type")), (("aircraft operator"), ("aircraft_operator")),
   (("aircraft tail number"), ("aircraft_tail_number")), (("aircraft type"), ("aircraft_type")),
   (("aircraft manufacturer"), ("aircraft_manufacturer"))]

/-- One name part of a documented name, as written to the output row. -/
structure NamePart where
  part_type : String
  part_value : String
  script : String
deriving DecidableEq

/-- The primary_name sub-record. -/
structure PrimaryName where
  full_name : String
  name_parts : List NamePart
deriving DecidableEq

/-- One aliases entry. -/
structure AliasRec where
  alias_type : String
  alias_quality : String
  full_name : String
  name_parts : List NamePart
deriving DecidableEq

/-- An address, also the value shape of the locations map. -/
structure AddressRec where
  address : String
  city : String
  state_province : String
  postal_code : String
  country : String
  region : String
deriving DecidableEq

/-- An identity document, the value shape of the id-docs map. -/
structure IdDoc where
  id_type : String
  id_number : String
  country : String
  issue_date : String
  expiry_date : String
  is_fraudulent : Bool
deriving DecidableEq

/-- The vessel_info sub-record; fields are the Python dict .get results. -/
structure VesselInfo where
  vessel_type : Option String
  vessel_flag : Option String
  vessel_owner : Option String
  vessel_tonnage : Option String
  vessel_grt : Option String
  vessel_call_sign : Option String
  vessel_mmsi : Option String
  vessel_imo : Option String
deriving DecidableEq

/-- The aircraft_info sub-record. -/
structure AircraftInfo where
  aircraft_type : Option String
  aircraft_manufacturer : Option String
  aircraft_serial : Option String
  aircraft_tail_number : Option String
  aircraft_operator : Option String
deriving DecidableEq

/-- One flat output row (pipeline.py lines 451-463). -/
structure SdnRecord where
  sdn_entry_id : Int
  sdn_type : Option String
  programs : List String
  legal_authorities : List String
  primary_name : Option PrimaryName
  aliases : List AliasRec
  addresses : List AddressRec
  id_documents : List IdDoc
  dates_of_birth : List String
  places_of_birth : List String
  nationalities : List String
  citizenships : List String
  title : Option String
  gender : Option String
  remarks : Option String
  vessel_info : Option VesselInfo
  aircraft_info : Option AircraftInfo
  additional_sanctions_info : Option String
  publication_date : Option String
  ingestion_timestamp : String
  source_url : String
deriving DecidableEq

/-- The per-profile value of the sanctions map. -/
structure SanctionsData where
  programs : List String
  legal_authorities : List String
  remarks : String
deriving DecidableEq

/-- The per-boundary parts dict of _parse_date_period (pipeline.py
line 93): tag to trimmed text over the From children, later same-tag
children overwriting earlier ones. -/
def boundary_parts (from_elem : Xml) : RefMap :=
  from_elem.children.foldl (fun m d => dinsert m d.tag (pyStrip d.text)) []

/-- The boundary walk of _parse_date_period (pipeline.py lines 87-105):
skip non-Start/End boundaries, boundaries without From, and boundaries
whose Year is empty; format the first boundary that has a year. -/
def parse_date_period_go : List Xml → Option String
  | [] => none
  | boundary :: rest =>
    if boundary.tag = ("Start") ∨ boundary.tag = ("End") then
      match find_tag boundary ("From") with
      | none => parse_date_period_go rest
      | some from_elem =>
        let parts := boundary_parts from_elem
        let year := (dlookup parts ("Year")).getD ("")
        if year = ("") then parse_date_period_go rest
        else
          let month := match dlookup parts ("Month") with
            | some m => if m ≠ ("") then zfill2 m else ("")
            | none => ("")
          let day := match dlookup parts ("Day") with
            | some d => if d ≠ ("") then zfill2 d else ("")
            | none => ("")
          if month ≠ ("") ∧ day ≠ ("") then some (year ++ ("-") ++ month ++ ("-") ++ day)
          else if month ≠ ("") then some (year ++ ("-") ++ month)
          else some year
    else parse_date_period_go rest

/-- _parse_date_period (pipeline.py lines 86-105). -/
def _parse_date_period (dp_elem : Xml) : Option String :=
  parse_date_period_go dp_elem.children

/-- The simple-set branch of _build_ref_maps (pipeline.py lines 135-139):
id attribute to trimmed own text, skipping items without a truthy ID. -/
def simple_set_map (set_elem : Xml) : RefMap :=
  set_elem.children.foldl (fun m item =>
    match item.attr ("ID") with
    | some item_id => if item_id ≠ ("") then dinsert m item_id (pyStrip item.text) else m
    | none => m) []

/-- The LegalBasisValues branch of _build_ref_maps (pipeline.py lines
117-123): id to the trimmed text of the LegalBasisShortRef child, empty
when that child is missing. -/
def legal_basis_set_map (set_elem : Xml) : RefMap :=
  set_elem.children.foldl (fun m lb =>
    match lb.attr ("ID") with
    | some lb_id =>
      if lb_id ≠ ("") then
        dinsert m lb_id (match find_tag lb ("LegalBasisShortRef") with
          | some short_ref => pyStrip short_ref.text
          | none => (""))
      else m
    | none => m) []

/-- The PartySubTypeValues branch of _build_ref_maps (pipeline.py lines
124-133): accumulate id to (trimmed text, PartyTypeID attribute). -/
def party_subtype_raw (set_elem : Xml) (raw : List (String × String × String)) :
    List (String × String × String) :=
  set_elem.children.foldl (fun r item =>
    match item.attr ("ID") with
    | some item_id =>
      if item_id ≠ ("") then dinsert r item_id (pyStrip item.text, item.attrD ("PartyTypeID") (""))
      else r
    | none => r) raw

/-- One value set folded into (dict of dicts, raw party subtypes), the
body of the set loop of _build_ref_maps (pipeline.py lines 114-140). -/
def ref_set_step (st : List (String × RefMap) × List (String × String × String))
    (set_elem : Xml) : List (String × RefMap) × List (String × String × String) :=
  if set_elem.tag = ("LegalBasisValues") then
    (dinsert st.1 set_elem.tag (legal_basis_set_map set_elem), st.2)
  else if set_elem.tag = ("PartySubTypeValues") then
    let raw2 := party_subtype_raw set_elem st.2
    (dinsert st.1 set_elem.tag (raw2.map (fun p => (p.1, p.2.1))), raw2)
  else
    (dinsert st.1 set_elem.tag (simple_set_map set_elem), st.2)

/-- The state after the set loop of _build_ref_maps over the first
ReferenceValueSets block: the dict of dicts plus the raw party
subtypes, before the cross-reference of pipeline.py lines 141-148. -/
def ref_sets_state (root : Xml) : List (String × RefMap) × List (String × String × String) :=
  match root.children.find? (fun c => c.tag = ("ReferenceValueSets")) with
  | none => ([], [])
  | some rvs => rvs.children.foldl ref_set_step (([], []))

/-- The raw party-subtype table: id to (trimmed text, PartyTypeID). -/
def raw_party_subtypes_of (root : Xml) : List (String × String × String) :=
  (ref_sets_state root).2

/-- The replacement applied by the cross-reference comprehension of
_build_ref_maps (pipeline.py lines 144-148). -/
def subtype_resolve (ptv : RefMap) (p : String × String × String) : String × String :=
  (p.1, if p.2.1 ≠ ("") ∧ p.2.1 ≠ ("Unknown") then p.2.1
        else (dlookup ptv p.2.2).getD p.2.1)

/-- _build_ref_maps (pipeline.py lines 108-150): fold the value sets of
the first ReferenceValueSets block into a dict of dicts, then replace
every PartySubTypeValues text that is empty or the literal Unknown by
the PartyTypeValues lookup of its PartyTypeID (lines 141-148). -/
def _build_ref_maps (root : Xml) : List (String × RefMap) :=
  let st := ref_sets_state root
  if st.2 ≠ [] ∧ (dlookup st.1 ("PartyTypeValues")).isSome then
    let ptv := (dlookup st.1 ("PartyTypeValues")).getD []
    dinsert st.1 ("PartySubTypeValues") (st.2.map (subtype_resolve ptv))
  else st.1

/-- The first LocationPartValue child's trimmed text (pipeline.py lines
172-176), empty when absent. -/
def location_part_value (lchild : Xml) : String :=
  match find_tag lchild ("LocationPartValue") with
  | some lpv => pyStrip lpv.text
  | none => ("")

/-- The routing of one location part by substring of the resolved part
type name (pipeline.py lines 179-190). -/
def apply_location_part (loc_part_name part_value : String) (ld : AddressRec) : AddressRec :=
  if pyContains loc_part_name ("city") then { ld with city := part_value }
  else if pyContains loc_part_name ("address") then { ld with address := part_value }
  else if pyContains loc_part_name ("state") ∨ pyContains loc_part_name ("province") then
    { ld with state_province := part_value }
  else if pyContains loc_part_name ("postal") ∨ pyContains loc_part_name ("zip") then
    { ld with postal_code := part_value }
  else if pyContains loc_part_name ("region") then { ld with region := part_value }
  else { ld with address := lstripCommaSpace (ld.address ++ (", ") ++ part_value) }

/-- One Location element folded to an AddressRec (pipeline.py lines
164-191). -/
def build_location (country_values loc_part_types : RefMap) (loc : Xml) : AddressRec :=
  loc.children.foldl (fun ld lchild =>
    if lchild.tag = ("LocationCountry") then
      { ld with country := (dlookup country_values (lchild.attrD ("CountryID") (""))).getD ("") }
    else if lchild.tag = ("LocationPart") then
      let loc_part_name :=
        pyLower ((dlookup loc_part_types (lchild.attrD ("LocPartTypeID") (""))).getD (""))
      let part_value := location_part_value lchild
      if part_value = ("") then ld else apply_location_part loc_part_name part_value ld
    else ld)
    (AddressRec.mk ("") ("") ("") ("") ("") (""))

/-- _build_locations_map (pipeline.py lines 153-193). -/
def _build_locations_map (root : Xml) (country_values loc_part_types : RefMap) :
    List (String × AddressRec) :=
  match root.children.find? (fun c => c.tag = ("Locations")) with
  | none => []
  | some locs => locs.children.foldl (fun m loc =>
      if loc.tag = ("Location") then
        match loc.attr ("ID") with
        | some loc_id =>
          if loc_id ≠ ("") then
            dinsert m loc_id (build_location country_values loc_part_types loc)
          else m
        | none => m
      else m) []

/-- One IDRegDocument element folded to an IdDoc (pipeline.py lines
204-225): the initial id_type from the element's own attribute, then
child elements overriding fields. -/
def build_id_doc (country_values id_reg_doc_types : RefMap) (doc : Xml) : IdDoc :=
  doc.children.foldl (fun dd dchild =>
    if dchild.tag = ("IDRegDocType") then
      let t := (dlookup id_reg_doc_types (dchild.attrD ("IDRegDocTypeID") (""))).getD
        (pyStrip dchild.text)
      { dd with id_type := t }
    else if dchild.tag = ("IDRegDocumentID") then { dd with id_number := pyStrip dchild.text }
    else if dchild.tag = ("IssuingCountry") then
      { dd with country := (dlookup country_values (dchild.attrD ("CountryID") (""))).getD ("") }
    else if dchild.tag = ("IDRegDocDateOfIssuance") then
      { dd with issue_date := (_parse_date_period dchild).getD ("") }
    else if dchild.tag = ("IDRegDocExpirationDate") then
      { dd with expiry_date := (_parse_date_period dchild).getD ("") }
    else dd)
    (IdDoc.mk ((dlookup id_reg_doc_types (doc.attrD ("IDRegDocTypeID") (""))).getD (""))
      ("") ("") ("") ("") false)

/-- _build_id_docs_map (pipeline.py lines 196-227). -/
def _build_id_docs_map (root : Xml) (country_values id_reg_doc_types : RefMap) :
    List (String × IdDoc) :=
  match root.children.find? (fun c => c.tag = ("IDRegDocuments")) with
  | none => []
  | some docs => docs.children.foldl (fun m doc =>
      if doc.tag = ("IDRegDocument") then
        match doc.attr ("ID") with
        | some doc_id =>
          if doc_id ≠ ("") then dinsert m doc_id (build_id_doc country_values id_reg_doc_types doc)
          else m
        | none => m
      else m) []

/-- One SanctionsMeasure child folded into the program list (pipeline.py
lines 249-254): a Comment child's trimmed text is appended when
non-empty and not already present. -/
def measure_comment_step (ps : List String) (sm_child : Xml) : List String :=
  if sm_child.tag = ("Comment") then
    let prog_name := pyStrip sm_child.text
    if prog_name ≠ ("") ∧ prog_name ∉ ps then ps ++ [prog_name] else ps
  else ps

/-- One SanctionsEntry child folded into the per-entry data, the loop
body of pipeline.py lines 245-263. -/
def sanctions_entry_step (legal_basis_map : RefMap) (sd : SanctionsData) (echild : Xml) :
    SanctionsData :=
  if echild.tag = ("SanctionsMeasure") then
    { sd with programs := echild.children.foldl measure_comment_step sd.programs }
  else if echild.tag = ("EntryEvent") then
    let lb_id := echild.attrD ("LegalBasisID") ("")
    if lb_id ≠ ("") then
      match dlookup legal_basis_map lb_id with
      | some la =>
        if la ≠ ("") ∧ la ∉ sd.legal_authorities then
          { sd with legal_authorities := sd.legal_authorities ++ [la] }
        else sd
      | none => sd
    else sd
  else if echild.tag = ("Remarks") then { sd with remarks := pyStrip echild.text }
  else sd

/-- One SanctionsEntry folded to its per-entry data (pipeline.py lines
242-263): program names are the trimmed Comment children of each
SanctionsMeasure; legal authorities come from the LegalBasisID
attribute carried on each EntryEvent element itself; Remarks wins last. -/
def sanctions_entry_data (legal_basis_map : RefMap) (entry : Xml) : SanctionsData :=
  entry.children.foldl (sanctions_entry_step legal_basis_map) (SanctionsData.mk [] [] (""))

/-- The additive dedup merge used when several entries share a profile
id (pipeline.py lines 264-270): extend the accumulated list with the
new items that are not present yet, in order. -/
def dedup_extend (acc xs : List String) : List String :=
  xs.foldl (fun a x => if x ∈ a then a else a ++ [x]) acc

/-- One child of the SanctionsEntries block folded into the sanctions
map (pipeline.py lines 235-270): entries are keyed by the trimmed
ProfileID attribute, entries whose ProfileID is empty are skipped;
merging into an existing key is additive with dedup, remarks
last-write-wins. -/
def sanctions_map_step (legal_basis_map : RefMap) (m : List (String × SanctionsData))
    (entry : Xml) : List (String × SanctionsData) :=
  if entry.tag = ("SanctionsEntry") then
    let profile_id := pyStrip (entry.attrD ("ProfileID") (""))
    if profile_id ≠ ("") then
      let d := sanctions_entry_data legal_basis_map entry
      let cur := (dlookup m profile_id).getD (SanctionsData.mk [] [] (""))
      dinsert m profile_id
        (SanctionsData.mk (dedup_extend cur.programs d.programs)
          (dedup_extend cur.legal_authorities d.legal_authorities)
          (if d.remarks ≠ ("") then d.remarks else cur.remarks))
    else m
  else m

/-- _build_sanctions_map (pipeline.py lines 230-272): fold the children
of the first SanctionsEntries block into the profile-id-keyed map. -/
def _build_sanctions_map (root : Xml) (legal_basis_map : RefMap) :
    List (String × SanctionsData) :=
  match root.children.find? (fun c => c.tag = ("SanctionsEntries")) with
  | none => []
  | some ses => ses.children.foldl (sanctions_map_step legal_basis_map) []

/-- The name-part-group map of _parse_identity (pipeline.py lines
276-286): group id to resolved NamePartTypeValues name, with the
fallback text part_ followed by the type id. -/
def build_npg_map (identity_elem : Xml) (name_part_types : RefMap) : RefMap :=
  identity_elem.children.foldl (fun m child =>
    if child.tag = ("NamePartGroups") then
      child.children.foldl (fun m2 master =>
        master.children.foldl (fun m3 ng =>
          if ng.tag = ("NamePartGroup") then
            match ng.attr ("ID"), ng.attr ("NamePartTypeID") with
            | some ng_id, some ng_type_id =>
              if ng_id ≠ ("") ∧ ng_type_id ≠ ("") then
                dinsert m3 ng_id ((dlookup name_part_types ng_type_id).getD (("part_") ++ ng_type_id))
              else m3
            | _, _ => m3
          else m3) m2) m
    else m) []

/-- One collected name part before sorting (the tuple of pipeline.py
line 304). -/
structure RawPart where
  sort_key : Nat
  part_type : String
  script : String
  value : String
deriving DecidableEq

/-- NAME_PART_ORDER.get(key, 99) (pipeline.py line 303). -/
def name_part_order_key (s : String) : Nat := (dlookup NAME_PART_ORDER s).getD 99

/-- The collected parts of one DocumentedName in document order
(pipeline.py lines 294-304): skip empty trimmed values; part type from
the group map with fallback Name; script resolved with fallback empty. -/
def doc_name_raw_parts (npg_map script_values : RefMap) (doc_name : Xml) : List RawPart :=
  (iter_tag doc_name ("DocumentedNamePart")).flatMap (fun dnp =>
    (iter_tag dnp ("NamePartValue")).filterMap (fun npv =>
      let part_type := (dlookup npg_map (npv.attrD ("NamePartGroupID") (""))).getD ("Name")
      let script := (dlookup script_values (npv.attrD ("ScriptID") (""))).getD ("")
      let value := pyStrip npv.text
      if value ≠ ("") then
        some (RawPart.mk (name_part_order_key (pyLower part_type)) part_type script value)
      else none))

/-- parts_raw.sort(key=sort_key) (pipeline.py line 305): Python list
sort is stable, and every sort key lies in [0, 100) (the order table
holds 0..4 and the default is 99), so the stable sort is exactly the
concatenation of the key-k sublists for k ascending. -/
def stable_sort_parts (l : List RawPart) : List RawPart :=
  (List.range 100).flatMap (fun k => l.filter (fun p => p.sort_key = k))

/-- The sorted parts_raw of one DocumentedName (pipeline.py line 305). -/
def sorted_parts (npg_map script_values : RefMap) (doc_name : Xml) : List RawPart :=
  stable_sort_parts (doc_name_raw_parts npg_map script_values doc_name)

/-- name_parts_bq of one DocumentedName (pipeline.py lines 306-307). -/
def name_parts_of (npg_map script_values : RefMap) (doc_name : Xml) : List NamePart :=
  (sorted_parts npg_map script_values doc_name).map (fun p => NamePart.mk p.part_type p.value p.script)

/-- full_name of one DocumentedName (pipeline.py line 308): the
space-join of the non-empty part values in sorted order. -/
def full_name_of (npg_map script_values : RefMap) (doc_name : Xml) : String :=
  String.intercalate (" ")
    (((sorted_parts npg_map script_values doc_name).map (fun p => p.value)).filter (fun v => v ≠ ("")))

/-- Processing of one DocumentedName (pipeline.py lines 293-315): sort
the parts, join the values into full_name, skip when empty, set the
primary name when this alias is primary and none is set yet, otherwise
append an alias row. -/
def documented_name_step (alias_type alias_quality : String) (is_primary : Bool)
    (npg_map script_values : RefMap) (r : SdnRecord) (doc_name : Xml) : SdnRecord :=
  let full_name := full_name_of npg_map script_values doc_name
  let name_parts_bq := name_parts_of npg_map script_values doc_name
  if full_name = ("") then r
  else if is_primary ∧ r.primary_name = none then
    { r with primary_name := some (PrimaryName.mk full_name name_parts_bq) }
  else
    { r with aliases := r.aliases ++ [AliasRec.mk alias_type alias_quality full_name name_parts_bq] }

/-- The resolved alias type of one Alias (pipeline.py lines 288-291). -/
def alias_type_of (alias_types : RefMap) (al : Xml) : String :=
  (dlookup alias_types (al.attrD ("AliasTypeID") (""))).getD ("a.k.a.")

/-- Is this Alias primary (pipeline.py line 289): the Primary attribute
trimmed and case-folded equals true. -/
def is_primary_alias (al : Xml) : Bool :=
  pyLower (pyStrip (al.attrD ("Primary") ("false"))) = ("true")

/-- The alias quality (pipeline.py lines 290-292): weak when LowQuality
is true (trimmed, case-folded), else strong. -/
def alias_quality_of (al : Xml) : String :=
  if pyLower (pyStrip (al.attrD ("LowQuality") ("false"))) = ("true") then ("weak")
  else ("strong")

/-- One Alias folded into the record, the loop body of pipeline.py
lines 287-315. -/
def alias_step (alias_types script_values : RefMap) (npg_map : RefMap)
    (r : SdnRecord) (al : Xml) : SdnRecord :=
  (iter_tag al ("DocumentedName")).foldl
    (documented_name_step (alias_type_of alias_types al) (alias_quality_of al)
      (is_primary_alias al) npg_map script_values) r

/-- _parse_identity (pipeline.py lines 275-315). -/
def _parse_identity (identity_elem : Xml) (record : SdnRecord)
    (alias_types script_values name_part_types : RefMap) : SdnRecord :=
  let npg_map := build_npg_map identity_elem name_part_types
  (iter_tag identity_elem ("Alias")).foldl (alias_step alias_types script_values npg_map) record

/-- _apply_location (pipeline.py lines 318-330): a birth-place feature
dedup-appends the comma-joined city, state, country with empty pieces
elided; any other feature appends a full address row unless every field
is empty. -/
def _apply_location (loc : AddressRec) (ft_name : String) (record : SdnRecord) : SdnRecord :=
  if pyContains ft_name ("birth") ∧ pyContains ft_name ("place") then
    let pob := String.intercalate (", ")
      (([loc.city, loc.state_province, loc.country]).filter (fun s => s ≠ ("")))
    if pob ≠ ("") ∧ pob ∉ record.places_of_birth then
      { record with places_of_birth := record.places_of_birth ++ [pob] }
    else record
  else
    if loc.address ≠ ("") ∨ loc.city ≠ ("") ∨ loc.state_province ≠ ("") ∨
       loc.postal_code ≠ ("") ∨ loc.country ≠ ("") ∨ loc.region ≠ ("") then
      { record with addresses := record.addresses ++
        [AddressRec.mk loc.address loc.city loc.state_province loc.postal_code loc.country loc.region] }
    else record

/-- The mutable state of _parse_features (pipeline.py lines 334-336):
the record plus the vessel and aircraft dicts and the
additional-sanctions accumulator shared across all features. -/
structure FState where
  record : SdnRecord
  vessel : List (String × String)
  aircraft : List (String × String)
  additional_sanctions : List String
deriving DecidableEq

/-- The first table key contained in the feature-type name, mapped to
its field (the break-on-first-match loops of pipeline.py lines 381-388). -/
def first_feature_field (table : List (String × String)) (ft_name : String) : Option String :=
  (table.find? (fun p => pyContains ft_name p.1)).map (fun p => p.2)

/-- One VersionDetail child folded into the record (pipeline.py lines
361-370): a LocationID child's trimmed text resolved through the
locations map and routed by _apply_location; an IDRegDocumentReference
child's DocumentID resolved through the id-docs map, appending a copy. -/
def version_detail_child_step (ft_name : String)
    (locations_map : List (String × AddressRec)) (id_docs_map : List (String × IdDoc))
    (rr : SdnRecord) (vdc : Xml) : SdnRecord :=
  if vdc.tag = ("LocationID") then
    let loc_id := pyStrip vdc.text
    if loc_id ≠ ("") then
      match dlookup locations_map loc_id with
      | some loc => _apply_location loc ft_name rr
      | none => rr
    else rr
  else if vdc.tag = ("IDRegDocumentReference") then
    let doc_id := vdc.attrD ("DocumentID") ("")
    if doc_id ≠ ("") then
      match dlookup id_docs_map doc_id with
      | some doc => { rr with id_documents := rr.id_documents ++ [doc] }
      | none => rr
    else rr
  else rr

/-- One FeatureVersion child folded into (record, comment) (pipeline.py
lines 342-374): Comment resets the captured comment (last one wins);
DatePeriod dedup-appends a birth date; VersionDetail routes the country
attribute to nationalities or citizenships and folds its children;
VersionLocation routes its LocationID attribute. -/
def feature_version_child (ft_name : String) (country_values : RefMap)
    (locations_map : List (String × AddressRec)) (id_docs_map : List (String × IdDoc))
    (st : SdnRecord × String) (fvc : Xml) : SdnRecord × String :=
  let r := st.1
  let comment := st.2
  if fvc.tag = ("Comment") then (r, pyStrip fvc.text)
  else if fvc.tag = ("DatePeriod") then
    match _parse_date_period fvc with
    | some date_val =>
      if pyContains ft_name ("birth") ∧ pyContains ft_name ("date") ∧
         date_val ∉ r.dates_of_birth then
        ({ r with dates_of_birth := r.dates_of_birth ++ [date_val] }, comment)
      else (r, comment)
    | none => (r, comment)
  else if fvc.tag = ("VersionDetail") then
    let country_id := fvc.attrD ("CountryID") ("")
    let r1 :=
      if country_id ≠ ("") then
        let country_name := (dlookup country_values country_id).getD ("")
        if pyContains ft_name ("national") ∧ country_name ≠ ("") then
          (if country_name ∉ r.nationalities then
            { r with nationalities := r.nationalities ++ [country_name] } else r)
        else if pyContains ft_name ("citizen") ∧ country_name ≠ ("") then
          (if country_name ∉ r.citizenships then
            { r with citizenships := r.citizenships ++ [country_name] } else r)
        else r
      else r
    let r2 := fvc.children.foldl (version_detail_child_step ft_name locations_map id_docs_map) r1
    (r2, comment)
  else if fvc.tag = ("VersionLocation") then
    let loc_id := fvc.attrD ("LocationID") ("")
    if loc_id ≠ ("") then
      match dlookup locations_map loc_id with
      | some loc => (_apply_location loc ft_name r, comment)
      | none => (r, comment)
    else (r, comment)
  else (r, comment)

/-- One FeatureVersion folded into the state (pipeline.py lines
340-388): fold the children, then apply the captured comment to gender,
title or the additional-sanctions accumulator, then to the first
matching vessel key and the first matching aircraft key. -/
def feature_version_step (ft_name : String) (country_values : RefMap)
    (locations_map : List (String × AddressRec)) (id_docs_map : List (String × IdDoc))
    (st : FState) (fv : Xml) : FState :=
  let rc := fv.children.foldl
    (feature_version_child ft_name country_values locations_map id_docs_map) (st.record, (""))
  let r1 := rc.1
  let comment := rc.2
  let st1 :=
    if pyContains ft_name ("gender") ∧ comment ≠ ("") then
      { st with record := { r1 with gender := some comment } }
    else if pyContains ft_name ("title") ∧ comment ≠ ("") then
      { st with record := { r1 with title := some comment } }
    else if pyContains ft_name ("additional sanctions") ∧ comment ≠ ("") then
      { st with record := r1, additional_sanctions := st.additional_sanctions ++ [comment] }
    else { st with record := r1 }
  let st2 :=
    if comment ≠ ("") then
      match first_feature_field VESSEL_FEATURES ft_name with
      | some field => { st1 with vessel := dinsert st1.vessel field comment }
      | none => st1
    else st1
  if comment ≠ ("") then
    match first_feature_field AIRCRAFT_FEATURES ft_name with
    | some field => { st2 with aircraft := dinsert st2.aircraft field comment }
    | none => st2
  else st2

/-- One Feature folded into the state (pipeline.py lines 337-340): the
feature-type name is the lowercased resolved FeatureTypeID. -/
def feature_step (feature_types country_values : RefMap)
    (locations_map : List (String × AddressRec)) (id_docs_map : List (String × IdDoc))
    (st : FState) (feature : Xml) : FState :=
  let ft_name := pyLower ((dlookup feature_types (feature.attrD ("FeatureTypeID") (""))).getD (""))
  (iter_tag feature ("FeatureVersion")).foldl
    (feature_version_step ft_name country_values locations_map id_docs_map) st

/-- The vessel_info dict materialized from the vessel accumulator
(pipeline.py lines 389-395). -/
def mk_vessel_info (v : List (String × String)) : VesselInfo :=
  VesselInfo.mk (dlookup v ("vessel_type")) (dlookup v ("vessel_flag"))
    (dlookup v ("vessel_owner")) (dlookup v ("vessel_tonnage")) (dlookup v ("vessel_grt"))
    (dlookup v ("vessel_call_sign")) (dlookup v ("vessel_mmsi")) (dlookup v ("vessel_imo"))

/-- The aircraft_info dict materialized from the aircraft accumulator
(pipeline.py lines 396-401). -/
def mk_aircraft_info (a : List (String × String)) : AircraftInfo :=
  AircraftInfo.mk (dlookup a ("aircraft_type")) (dlookup a ("aircraft_manufacturer"))
    (dlookup a ("aircraft_serial")) (dlookup a ("aircraft_tail_number"))
    (dlookup a ("aircraft_operator"))

/-- _parse_features (pipeline.py lines 333-403): fold every Feature of
the profile, then materialize vessel_info / aircraft_info only when
their accumulators are non-empty and join the additional-sanctions
accumulator. -/
def _parse_features (profile_elem : Xml) (record : SdnRecord)
    (feature_types country_values : RefMap) (locations_map : List (String × AddressRec))
    (id_docs_map : List (String × IdDoc)) : SdnRecord :=
  let st := (iter_tag profile_elem ("Feature")).foldl
    (feature_step feature_types country_values locations_map id_docs_map)
    (FState.mk record [] [] [])
  let r1 :=
    if st.vessel ≠ [] then
      { st.record with vessel_info := some (mk_vessel_info st.vessel) }
    else st.record
  let r2 :=
    if st.aircraft ≠ [] then
      { r1 with aircraft_info := some (mk_aircraft_info st.aircraft) }
    else r1
  if st.additional_sanctions ≠ [] then
    { r2 with additional_sanctions_info := some (String.intercalate ("; ") st.additional_sanctions) }
  else r2

/-- The freshly initialized output row (pipeline.py lines 451-463). -/
def init_record (entry_id : Int) (pub_date : Option String) (ingestion_ts : String) : SdnRecord :=
  SdnRecord.mk entry_id none [] [] none [] [] [] [] [] [] [] none none none none none none
    pub_date ingestion_ts OFAC_SOURCE_URL

/-- One DistinctParty child folded into the record (pipeline.py lines
464-477): every Profile child resolves sdn_type from its PartySubTypeID
(dict.get with no default, so None when unknown), overlays the
sanctions-map entry keyed by its ID attribute, runs the identity parser
on each Identity child, then runs the feature folder on the Profile. -/
def profile_step (party_subtypes : RefMap) (sanctions_map : List (String × SanctionsData))
    (alias_types script_values name_part_types feature_types country_values : RefMap)
    (locations_map : List (String × AddressRec)) (id_docs_map : List (String × IdDoc))
    (r : SdnRecord) (dp_child : Xml) : SdnRecord :=
  if dp_child.tag = ("Profile") then
    let profile_id := dp_child.attrD ("ID") ("")
    let r1 := { r with sdn_type := dlookup party_subtypes (dp_child.attrD ("PartySubTypeID") ("")) }
    let r2 := match dlookup sanctions_map profile_id with
      | some se =>
        { r1 with programs := se.programs, legal_authorities := se.legal_authorities,
                  remarks := if se.remarks ≠ ("") then some se.remarks else none }
      | none => r1
    let r3 := (iter_tag dp_child ("Identity")).foldl
      (fun rr ident => _parse_identity ident rr alias_types script_values name_part_types) r2
    _parse_features dp_child r3 feature_types country_values locations_map id_docs_map
  else r

/-- One DistinctParty turned into a row (pipeline.py lines 445-478),
given its parsed integer FixedRef. -/
def emit_party (party_subtypes : RefMap) (sanctions_map : List (String × SanctionsData))
    (alias_types script_values name_part_types feature_types country_values : RefMap)
    (locations_map : List (String × AddressRec)) (id_docs_map : List (String × IdDoc))
    (pub_date : Option String) (ingestion_ts : String) (entry_id : Int) (dp : Xml) : SdnRecord :=
  dp.children.foldl
    (profile_step party_subtypes sanctions_map alias_types script_values name_part_types
      feature_types country_values locations_map id_docs_map)
    (init_record entry_id pub_date ingestion_ts)

/-- The DistinctParty loop (pipeline.py lines 445-478): skip non-party
children and parties with an empty trimmed FixedRef; a FixedRef that
int() rejects raises, aborting the whole parse (modelled as none). -/
def party_step (party_subtypes : RefMap) (sanctions_map : List (String × SanctionsData))
    (alias_types script_values name_part_types feature_types country_values : RefMap)
    (locations_map : List (String × AddressRec)) (id_docs_map : List (String × IdDoc))
    (pub_date : Option String) (ingestion_ts : String)
    (acc : Option (List SdnRecord)) (dp : Xml) : Option (List SdnRecord) :=
  match acc with
  | none => none
  | some recs =>
    if dp.tag = ("DistinctParty") then
      let fixed_ref := pyStrip (dp.attrD ("FixedRef") (""))
      if fixed_ref = ("") then some recs
      else match pyInt fixed_ref with
        | some n =>
          some (recs ++ [emit_party party_subtypes sanctions_map alias_types script_values
            name_part_types feature_types country_values locations_map id_docs_map
            pub_date ingestion_ts n dp])
        | none => none
    else some recs

/-- The DistinctParty loop folded over the children of the first
DistinctParties block (pipeline.py lines 445-478). -/
def parse_parties (party_subtypes : RefMap) (sanctions_map : List (String × SanctionsData))
    (alias_types script_values name_part_types feature_types country_values : RefMap)
    (locations_map : List (String × AddressRec)) (id_docs_map : List (String × IdDoc))
    (pub_date : Option String) (ingestion_ts : String) (dps_children : List Xml) :
    Option (List SdnRecord) :=
  dps_children.foldl
    (party_step party_subtypes sanctions_map alias_types script_values name_part_types
      feature_types country_values locations_map id_docs_map pub_date ingestion_ts)
    (some [])

/-- parse_ofac_advanced_xml (pipeline.py lines 406-482) on an
already-built DOM root: publication date from the first DateOfIssue
child, reference maps, locations, id documents and sanctions maps, then
one row per DistinctParty of the first DistinctParties block.  The
ingestion timestamp is a parameter (the source takes the wall clock
once per run); none models the ValueError raised on a bad FixedRef. -/
def parse_ofac_advanced_xml (root : Xml) (ingestion_ts : String) :
    Option (Option String × List SdnRecord) :=
  let pub_date := (root.children.find? (fun c => c.tag = ("DateOfIssue"))).map
    (fun c => pyStrip c.text)
  let refs := _build_ref_maps root
  let alias_types := (dlookup refs ("AliasTypeValues")).getD []
  let party_subtypes := (dlookup refs ("PartySubTypeValues")).getD []
  let feature_types := (dlookup refs ("FeatureTypeValues")).getD []
  let script_values := (dlookup refs ("ScriptValues")).getD []
  let name_part_types := (dlookup refs ("NamePartTypeValues")).getD []
  let country_values := (dlookup refs ("CountryValues")).getD []
  let loc_part_types := (dlookup refs ("LocPartTypeValues")).getD []
  let id_reg_doc_types := (dlookup refs ("IDRegDocTypeValues")).getD []
  let legal_basis_map := (dlookup refs ("LegalBasisValues")).getD []
  let locations_map := _build_locations_map root country_values loc_part_types
  let id_docs_map := _build_id_docs_map root country_values id_reg_doc_types
  let sanctions_map := _build_sanctions_map root legal_basis_map
  match root.children.find? (fun c => c.tag = ("DistinctParties")) with
  | none => some (pub_date, [])
  | some dps =>
    (parse_parties party_subtypes sanctions_map alias_types script_values name_part_types
      feature_types country_values locations_map id_docs_map pub_date ingestion_ts
      dps.children).map (fun recs => (pub_date, recs))

/-- clean_record applied to vessel_info (pipeline.py lines 514-534):
a struct whose values are all None or empty string becomes null. -/
def clean_vessel (v : VesselInfo) : Option VesselInfo :=
  if (v.vessel_type = none ∨ v.vessel_type = some ("")) ∧
     (v.vessel_flag = none ∨ v.vessel_flag = some ("")) ∧
     (v.vessel_owner = none ∨ v.vessel_owner = some ("")) ∧
     (v.vessel_tonnage = none ∨ v.vessel_tonnage = some ("")) ∧
     (v.vessel_grt = none ∨ v.vessel_grt = some ("")) ∧
     (v.vessel_call_sign = none ∨ v.vessel_call_sign = some ("")) ∧
     (v.vessel_mmsi = none ∨ v.vessel_mmsi = some ("")) ∧
     (v.vessel_imo = none ∨ v.vessel_imo = some (""))
  then none else some v

/-- clean_record applied to aircraft_info (pipeline.py lines 514-534). -/
def clean_aircraft (a : AircraftInfo) : Option AircraftInfo :=
  if (a.aircraft_type = none ∨ a.aircraft_type = some ("")) ∧
     (a.aircraft_manufacturer = none ∨ a.aircraft_manufacturer = some ("")) ∧
     (a.aircraft_serial = none ∨ a.aircraft_serial = some ("")) ∧
     (a.aircraft_tail_number = none ∨ a.aircraft_tail_number = some ("")) ∧
     (a.aircraft_operator = none ∨ a.aircraft_operator = some (""))
  then none else some a

/-- clean_record (pipeline.py lines 514-534).  primary_name is passed
through unchanged: its name_parts value is a list, which the Python
_strip_empty_struct never counts as empty, so a present primary_name is
never collapsed by this function. -/
def clean_record (r : SdnRecord) : SdnRecord :=
  { r with
    vessel_info := match r.vessel_info with
      | some v => clean_vessel v
      | none => none,
    aircraft_info := match r.aircraft_info with
      | some a => clean_aircraft a
      | none => none }

/-! Helper lemmas: association lists, fold projections, dedup. -/

theorem dlookup_cons {α : Type} (p : String × α) (m : List (String × α)) (k : String) :
    dlookup (p :: m) k = if p.1 = k then some p.2 else dlookup m k := by
  by_cases h : p.1 = k <;> simp [dlookup, List.find?_cons, h]

theorem dlookup_append {α : Type} (m l : List (String × α)) (k : String) :
    dlookup (m ++ l) k = match dlookup m k with
      | some v => some v
      | none => dlookup l k := by
  induction m with
  | nil => simp [dlookup]
  | cons p m ih =>
    by_cases h : p.1 = k <;> simp [dlookup_cons, h, ih]

theorem dlookup_eq_none_of_not_dmem {α : Type} (m : List (String × α)) (k : String)
    (h : dmem m k = false) : dlookup m k = none := by
  induction m with
  | nil => rfl
  | cons p m ih =>
    simp only [dmem, List.any_cons, Bool.or_eq_false_iff, decide_eq_false_iff_not] at h
    rw [dlookup_cons, if_neg h.1]
    exact ih h.2

theorem dlookup_map_self {α : Type} (m : List (String × α)) (k : String) (v : α)
    (h : dmem m k = true) :
    dlookup (m.map (fun p => if p.1 = k then (k, v) else p)) k = some v := by
  induction m with
  | nil => simp [dmem] at h
  | cons p m ih =>
    by_cases hp : p.1 = k
    · simp [hp, dlookup_cons]
    · simp [dmem, List.any_cons, hp] at h
      simp [hp, dlookup_cons, ih (by simp [dmem, h])]

theorem dlookup_map_ne {α : Type} (m : List (String × α)) (k j : String) (v : α)
    (h : j ≠ k) :
    dlookup (m.map (fun p => if p.1 = k then (k, v) else p)) j = dlookup m j := by
  induction m with
  | nil => rfl
  | cons p m ih =>
    rw [List.map_cons]
    by_cases hp : p.1 = k
    · rw [if_pos hp, dlookup_cons, dlookup_cons]
      rw [if_neg (fun hh : (k, v).1 = j => h (hh.symm))]
      rw [if_neg (fun hh : p.1 = j => h ((hp.symm.trans hh).symm))]
      exact ih
    · rw [if_neg hp, dlookup_cons, dlookup_cons]
      by_cases hj : p.1 = j
      · rw [if_pos hj, if_pos hj]
      · rw [if_neg hj, if_neg hj]
        exact ih

theorem dlookup_dinsert_self {α : Type} (m : List (String × α)) (k : String) (v : α) :
    dlookup (dinsert m k v) k = some v := by
  by_cases h : dmem m k
  · simp [dinsert, h, dlookup_map_self m k v h]
  · simp only [dinsert, h, Bool.false_eq_true, if_false]
    rw [dlookup_append]
    rw [dlookup_eq_none_of_not_dmem m k (by simp [h])]
    simp [dlookup_cons]

theorem dlookup_dinsert_ne {α : Type} (m : List (String × α)) (k j : String) (v : α)
    (h : j ≠ k) : dlookup (dinsert m k v) j = dlookup m j := by
  by_cases hm : dmem m k
  · simp only [dinsert, hm, if_pos]
    exact dlookup_map_ne m k j v h
  · simp only [dinsert, hm, Bool.false_eq_true, if_false]
    rw [dlookup_append]
    cases hd : dlookup m j with
    | some w => rfl
    | none =>
      have hcons : dlookup ([(k, v)] : List (String × α)) j = none := by
        rw [dlookup_cons, if_neg (fun hh : k = j => h (hh.symm))]
        rfl
      rw [hcons]

theorem dlookup_map_keyed {α β : Type} (g : String × α → β) (m : List (String × α))
    (k : String) :
    dlookup (m.map (fun p => (p.1, g p))) k = (m.find? (fun p => p.1 = k)).map g := by
  induction m with
  | nil => rfl
  | cons p m ih =>
    by_cases hp : p.1 = k
    · rw [List.map_cons, dlookup_cons]
      simp only [hp, if_pos]
      rw [List.find?_cons_of_pos _ (by simpa using hp)]
      rfl
    · rw [List.map_cons, dlookup_cons, if_neg hp, List.find?_cons_of_neg _ (by simpa using hp)]
      exact ih

theorem foldl_preserve {α β γ : Type} (proj : α → γ) (f : α → β → α)
    (h : ∀ a b, proj (f a b) = proj a) (l : List β) (a : α) :
    proj (l.foldl f a) = proj a := by
  induction l generalizing a with
  | nil => rfl
  | cons x xs ih => rw [List.foldl_cons, ih, h]

theorem foldl_flatMap {α β γ : Type} (g : β → List γ) (f : α → γ → α) (l : List β) (a : α) :
    (l.flatMap g).foldl f a = l.foldl (fun a b => (g b).foldl f a) a := by
  induction l generalizing a with
  | nil => rfl
  | cons x xs ih => rw [List.flatMap_cons, List.foldl_append, List.foldl_cons, ih]

/-- The new elements a dedup fold adds after a seen list. -/
def dedup_new (seen : List String) : List String → List String
  | [] => []
  | x :: xs => if x ∈ seen then dedup_new seen xs else x :: dedup_new (seen ++ [x]) xs

theorem dedup_extend_cons (acc : List String) (x : String) (xs : List String) :
    dedup_extend acc (x :: xs) = dedup_extend (if x ∈ acc then acc else acc ++ [x]) xs := rfl

theorem dedup_extend_append (acc xs ys : List String) :
    dedup_extend acc (xs ++ ys) = dedup_extend (dedup_extend acc xs) ys := by
  simp [dedup_extend, List.foldl_append]

theorem dedup_extend_eq (xs : List String) : ∀ (seen : List String),
    dedup_extend seen xs = seen ++ dedup_new seen xs := by
  induction xs with
  | nil => intro seen; simp [dedup_extend, dedup_new]
  | cons x xs ih =>
    intro seen
    by_cases hx : x ∈ seen
    · rw [dedup_extend_cons, if_pos hx, ih seen]
      simp [dedup_new, hx]
    · rw [dedup_extend_cons, if_neg hx, ih (seen ++ [x])]
      simp [dedup_new, hx]

theorem dedup_extend_dedup_new (xs : List String) : ∀ (b acc : List String),
    (∀ x ∈ b, x ∈ acc) → dedup_extend acc (dedup_new b xs) = dedup_extend acc xs := by
  induction xs with
  | nil => intro b acc _; rfl
  | cons x xs ih =>
    intro b acc hsub
    by_cases hxb : x ∈ b
    · have hxacc : x ∈ acc := hsub x hxb
      rw [show dedup_new b (x :: xs) = dedup_new b xs from by simp [dedup_new, hxb]]
      rw [ih b acc hsub, dedup_extend_cons, if_pos hxacc]
    · rw [show dedup_new b (x :: xs) = x :: dedup_new (b ++ [x]) xs from by
        simp [dedup_new, hxb]]
      rw [dedup_extend_cons, dedup_extend_cons]
      apply ih (b ++ [x])
      intro y hy
      rcases List.mem_append.mp hy with hyb | hyx
      · by_cases hxacc : x ∈ acc
        · rw [if_pos hxacc]; exact hsub y hyb
        · rw [if_neg hxacc]; exact List.mem_append.mpr (Or.inl (hsub y hyb))
      · have hyx2 : y = x := by simpa using hyx
        rw [hyx2]
        by_cases hxacc : x ∈ acc
        · rw [if_pos hxacc]; exact hxacc
        · rw [if_neg hxacc]; simp

theorem dedup_extend_of_dedup (acc xs : List String) :
    dedup_extend acc (dedup_extend [] xs) = dedup_extend acc xs := by
  rw [dedup_extend_eq xs []]
  simpa using dedup_extend_dedup_new xs [] acc (by intro x hx; simp at hx)

/-! Spec-side formulations for the sanctions map (claims C1 and C4). -/

/-- The trimmed Comment texts of one SanctionsMeasure, document order. -/
def comment_texts (m : Xml) : List String :=
  (iter_tag m ("Comment")).map (fun c => pyStrip c.text)

/-- The trimmed SanctionsMeasure Comment texts of one entry. -/
def measure_comment_texts (entry : Xml) : List String :=
  (iter_tag entry ("SanctionsMeasure")).flatMap comment_texts

/-- The legal-basis texts resolved from the EntryEvent elements of one
entry: the LegalBasisID attribute on the event itself, non-empty and
found in the table. -/
def entry_event_resolved (legal_basis_map : RefMap) (entry : Xml) : List String :=
  (iter_tag entry ("EntryEvent")).filterMap (fun ev =>
    if ev.attrD ("LegalBasisID") ("") ≠ ("") then
      dlookup legal_basis_map (ev.attrD ("LegalBasisID") (""))
    else none)

/-- The SanctionsEntry children that carry a given ProfileID. -/
def entries_for (pid : String) (children : List Xml) : List Xml :=
  children.filter (fun e =>
    e.tag = ("SanctionsEntry") ∧ pyStrip (e.attrD ("ProfileID") ("")) = pid)

/-- The children of the first SanctionsEntries block. -/
def sanctions_entries_children (root : Xml) : List Xml :=
  match root.children.find? (fun c => c.tag = ("SanctionsEntries")) with
  | none => []
  | some ses => ses.children

/-- Spec side of claim C1: the trimmed non-empty Measure Comment texts
accumulated over all entries sharing the ProfileID, deduplicated in
first-seen order. -/
def programs_spec (root : Xml) (pid : String) : List String :=
  dedup_extend []
    (((entries_for pid (sanctions_entries_children root)).flatMap measure_comment_texts).filter
      (fun s => s ≠ ("")))

/-- Spec side of claim C4: the EntryEvent legal-basis resolutions
accumulated over all entries sharing the ProfileID, non-empty,
deduplicated in first-seen order. -/
def legal_authorities_spec (root : Xml) (legal_basis_map : RefMap) (pid : String) :
    List String :=
  dedup_extend []
    (((entries_for pid (sanctions_entries_children root)).flatMap
        (entry_event_resolved legal_basis_map)).filter (fun s => s ≠ ("")))

theorem build_sanctions_map_eq_fold (root : Xml) (lbm : RefMap) :
    _build_sanctions_map root lbm
      = (sanctions_entries_children root).foldl (sanctions_map_step lbm) [] := by
  unfold _build_sanctions_map sanctions_entries_children
  cases root.children.find? (fun c => c.tag = ("SanctionsEntries")) <;> rfl

theorem measure_fold_eq (children : List Xml) : ∀ ps : List String,
    children.foldl measure_comment_step ps
      = dedup_extend ps
          (((children.filter (fun c => c.tag = ("Comment"))).map (fun c => pyStrip c.text)).filter
            (fun s => s ≠ (""))) := by
  induction children with
  | nil => intro ps; rfl
  | cons c rest ih =>
    intro ps
    rw [List.foldl_cons]
    by_cases hc : c.tag = ("Comment")
    · have hstep : measure_comment_step ps c
        = if pyStrip c.text ≠ ("") ∧ pyStrip c.text ∉ ps then ps ++ [pyStrip c.text] else ps := by
        simp [measure_comment_step, hc]
      by_cases ht : pyStrip c.text = ("")
      · rw [hstep, if_neg (by simp [ht]), ih]
        simp [List.filter_cons, hc, ht]
      · rw [hstep, ih]
        rw [List.filter_cons_of_pos (by simpa using hc), List.map_cons,
          List.filter_cons_of_pos (by simpa using ht), dedup_extend_cons]
        by_cases hm : pyStrip c.text ∈ ps
        · rw [if_neg (fun hand => hand.2 hm), if_pos hm]
        · rw [if_pos ⟨ht, hm⟩, if_neg hm]
    · have hstep : measure_comment_step ps c = ps := by simp [measure_comment_step, hc]
      rw [hstep, ih]
      simp [List.filter_cons, hc]

theorem sanctions_entry_step_programs_ne (lbm : RefMap) (sd : SanctionsData) (e : Xml)
    (h : ¬ e.tag = ("SanctionsMeasure")) :
    (sanctions_entry_step lbm sd e).programs = sd.programs := by
  simp only [sanctions_entry_step, if_neg h]
  by_cases he : e.tag = ("EntryEvent")
  · simp only [if_pos he]
    split
    · split
      · split <;> rfl
      · rfl
    · rfl
  · simp only [if_neg he]
    split <;> rfl

theorem sanctions_entry_step_legal_measure (lbm : RefMap) (sd : SanctionsData) (e : Xml)
    (h : ¬ e.tag = ("EntryEvent")) :
    (sanctions_entry_step lbm sd e).legal_authorities = sd.legal_authorities := by
  simp only [sanctions_entry_step]
  by_cases hm : e.tag = ("SanctionsMeasure")
  · simp [if_pos hm]
  · simp only [if_neg hm, if_neg h]
    split <;> rfl

theorem filterMap_cons_toList {α β : Type} (f : α → Option β) (a : α) (l : List α) :
    (a :: l).filterMap f = (f a).toList ++ l.filterMap f := by
  cases h : f a <;> simp [List.filterMap_cons, h]

theorem sanctions_entry_step_event (lbm : RefMap) (sd : SanctionsData) (e : Xml)
    (he : e.tag = ("EntryEvent")) :
    (sanctions_entry_step lbm sd e).legal_authorities
      = dedup_extend sd.legal_authorities
          ((if e.attrD ("LegalBasisID") ("") ≠ ("") then
              dlookup lbm (e.attrD ("LegalBasisID") (""))
            else none).toList.filter (fun s => s ≠ (""))) := by
  have hne : ¬ e.tag = ("SanctionsMeasure") := by rw [he]; decide
  simp only [sanctions_entry_step, if_neg hne, if_pos he]
  by_cases hid : e.attrD ("LegalBasisID") ("") ≠ ("")
  · rw [if_pos hid, if_pos hid]
    cases hl : dlookup lbm (e.attrD ("LegalBasisID") ("")) with
    | none => rfl
    | some la =>
      by_cases hla : la = ("")
      · simp [hla, dedup_extend]
      · simp only [Option.toList_some]
        rw [List.filter_cons_of_pos (by simpa using hla), List.filter_nil]
        by_cases hmem : la ∈ sd.legal_authorities
        · rw [if_neg (by simp [hmem])]
          rw [show dedup_extend sd.legal_authorities [la]
            = if la ∈ sd.legal_authorities then sd.legal_authorities
              else sd.legal_authorities ++ [la] from rfl]
          rw [if_pos hmem]
        · rw [if_pos ⟨hla, hmem⟩]
          rw [show dedup_extend sd.legal_authorities [la]
            = if la ∈ sd.legal_authorities then sd.legal_authorities
              else sd.legal_authorities ++ [la] from rfl]
          rw [if_neg hmem]
  · rw [if_neg hid, if_neg hid]
    rfl

theorem entry_fold_programs (lbm : RefMap) (children : List Xml) : ∀ sd : SanctionsData,
    (children.foldl (sanctions_entry_step lbm) sd).programs
      = dedup_extend sd.programs
          (((children.filter (fun e => e.tag = ("SanctionsMeasure"))).flatMap
              comment_texts).filter (fun s => s ≠ (""))) := by
  induction children with
  | nil => intro sd; rfl
  | cons e rest ih =>
    intro sd
    rw [List.foldl_cons]
    by_cases hm : e.tag = ("SanctionsMeasure")
    · have hstep : sanctions_entry_step lbm sd e
        = { sd with programs := e.children.foldl measure_comment_step sd.programs } := by
        simp [sanctions_entry_step, hm]
      rw [hstep, ih]
      simp only []
      rw [measure_fold_eq]
      rw [List.filter_cons_of_pos (by simpa using hm), List.flatMap_cons, List.filter_append,
        dedup_extend_append]
      rfl
    · rw [ih]
      rw [sanctions_entry_step_programs_ne lbm sd e hm]
      rw [List.filter_cons_of_neg (by simpa using hm)]

theorem entry_fold_legal (lbm : RefMap) (children : List Xml) : ∀ sd : SanctionsData,
    (children.foldl (sanctions_entry_step lbm) sd).legal_authorities
      = dedup_extend sd.legal_authorities
          (((children.filter (fun e => e.tag = ("EntryEvent"))).filterMap (fun ev =>
              if ev.attrD ("LegalBasisID") ("") ≠ ("") then
                dlookup lbm (ev.attrD ("LegalBasisID") (""))
              else none)).filter (fun s => s ≠ (""))) := by
  induction children with
  | nil => intro sd; rfl
  | cons e rest ih =>
    intro sd
    rw [List.foldl_cons]
    by_cases he : e.tag = ("EntryEvent")
    · rw [ih, List.filter_cons_of_pos (by simpa using he), filterMap_cons_toList,
        List.filter_append, dedup_extend_append, sanctions_entry_step_event lbm sd e he]
    · rw [ih, sanctions_entry_step_legal_measure lbm sd e he,
        List.filter_cons_of_neg (by simpa using he)]

theorem sanctions_entry_programs (lbm : RefMap) (e : Xml) :
    (sanctions_entry_data lbm e).programs
      = dedup_extend [] ((measure_comment_texts e).filter (fun s => s ≠ (""))) := by
  unfold sanctions_entry_data
  rw [entry_fold_programs]
  rfl

theorem sanctions_entry_legal (lbm : RefMap) (e : Xml) :
    (sanctions_entry_data lbm e).legal_authorities
      = dedup_extend [] ((entry_event_resolved lbm e).filter (fun s => s ≠ (""))) := by
  unfold sanctions_entry_data
  rw [entry_fold_legal]
  rfl

theorem sanctions_map_step_ne_tag (lbm : RefMap) (m : List (String × SanctionsData)) (e : Xml)
    (h : ¬ e.tag = ("SanctionsEntry")) : sanctions_map_step lbm m e = m := by
  simp [sanctions_map_step, h]

theorem sanctions_map_step_empty (lbm : RefMap) (m : List (String × SanctionsData)) (e : Xml)
    (htag : e.tag = ("SanctionsEntry")) (h : pyStrip (e.attrD ("ProfileID") ("")) = ("")) :
    sanctions_map_step lbm m e = m := by
  simp [sanctions_map_step, htag, h]

theorem sanctions_map_step_insert (lbm : RefMap) (m : List (String × SanctionsData)) (e : Xml)
    (htag : e.tag = ("SanctionsEntry")) (h : ¬ pyStrip (e.attrD ("ProfileID") ("")) = ("")) :
    sanctions_map_step lbm m e
      = dinsert m (pyStrip (e.attrD ("ProfileID") ("")))
          (SanctionsData.mk
            (dedup_extend
              ((dlookup m (pyStrip (e.attrD ("ProfileID") ("")))).getD
                (SanctionsData.mk [] [] (""))).programs
              (sanctions_entry_data lbm e).programs)
            (dedup_extend
              ((dlookup m (pyStrip (e.attrD ("ProfileID") ("")))).getD
                (SanctionsData.mk [] [] (""))).legal_authorities
              (sanctions_entry_data lbm e).legal_authorities)
            (if (sanctions_entry_data lbm e).remarks ≠ ("") then
              (sanctions_entry_data lbm e).remarks
            else
              ((dlookup m (pyStrip (e.attrD ("ProfileID") ("")))).getD
                (SanctionsData.mk [] [] (""))).remarks)) := by
  simp [sanctions_map_step, htag, h]

theorem getD_programs (o : Option SanctionsData) :
    (o.getD (SanctionsData.mk [] [] (""))).programs
      = ((o.map (fun sd => sd.programs)).getD []) := by
  cases o <;> rfl

theorem getD_legal (o : Option SanctionsData) :
    (o.getD (SanctionsData.mk [] [] (""))).legal_authorities
      = ((o.map (fun sd => sd.legal_authorities)).getD []) := by
  cases o <;> rfl

theorem smap_fold_data (lbm : RefMap) (pid : String) (hpid : pid ≠ (""))
    (children : List Xml) : ∀ (m : List (String × SanctionsData)),
    (dlookup (children.foldl (sanctions_map_step lbm) m) pid).map
        (fun sd => (sd.programs, sd.legal_authorities))
      = if (entries_for pid children).isEmpty = true then
          (dlookup m pid).map (fun sd => (sd.programs, sd.legal_authorities))
        else some
          (dedup_extend (((dlookup m pid).map (fun sd => sd.programs)).getD [])
            (((entries_for pid children).flatMap measure_comment_texts).filter
              (fun s => s ≠ (""))),
           dedup_extend (((dlookup m pid).map (fun sd => sd.legal_authorities)).getD [])
            (((entries_for pid children).flatMap (entry_event_resolved lbm)).filter
              (fun s => s ≠ ("")))) := by
  induction children with
  | nil => intro m; simp [entries_for]
  | cons e rest ih =>
    intro m
    rw [List.foldl_cons]
    by_cases htag : e.tag = ("SanctionsEntry")
    · by_cases hstrip : pyStrip (e.attrD ("ProfileID") ("")) = pid
      · have hne : ¬ pyStrip (e.attrD ("ProfileID") ("")) = ("") := by
          rw [hstrip]; exact hpid
        have hpred : entries_for pid (e :: rest) = e :: entries_for pid rest := by
          unfold entries_for
          rw [List.filter_cons_of_pos (by simp [htag, hstrip])]
        rw [sanctions_map_step_insert lbm m e htag hne, hstrip, ih, hpred]
        rw [dlookup_dinsert_self]
        simp only [Option.map_some, Option.getD_some, getD_programs, getD_legal,
          sanctions_entry_programs, sanctions_entry_legal, List.flatMap_cons,
          List.filter_append, dedup_extend_append, dedup_extend_of_dedup,
          List.isEmpty_cons]
        by_cases hrest : (entries_for pid rest).isEmpty = true
        · have hrestnil : entries_for pid rest = [] := by
            cases hempty2 : entries_for pid rest with
            | nil => rfl
            | cons a l => rw [hempty2] at hrest; simp at hrest
          simp [hrest, hrestnil, dedup_extend]
        · simp [hrest]
      · by_cases hempty : pyStrip (e.attrD ("ProfileID") ("")) = ("")
        · rw [sanctions_map_step_empty lbm m e htag hempty, ih]
          have hpred : entries_for pid (e :: rest) = entries_for pid rest := by
            unfold entries_for
            rw [List.filter_cons_of_neg (by simp [hstrip])]
          rw [hpred]
        · rw [sanctions_map_step_insert lbm m e htag hempty, ih]
          have hpred : entries_for pid (e :: rest) = entries_for pid rest := by
            unfold entries_for
            rw [List.filter_cons_of_neg (by simp [hstrip])]
          have hn : pid ≠ pyStrip (e.attrD ("ProfileID") ("")) := fun hh => hstrip hh.symm
          rw [hpred, dlookup_dinsert_ne _ _ _ _ hn]
    · rw [sanctions_map_step_ne_tag lbm m e htag, ih]
      have hpred : entries_for pid (e :: rest) = entries_for pid rest := by
        unfold entries_for
        rw [List.filter_cons_of_neg (by simp [htag])]
      rw [hpred]

/-! Preservation of record fields through the identity and feature
folds: the identity parser only writes primary_name and aliases, and
the feature folds never write programs, legal_authorities, sdn_type,
sdn_entry_id, and only the final materialization writes vessel_info and
aircraft_info. -/

/-- The record components the identity and feature folds never write. -/
def fold_invariant_of (r : SdnRecord) :
    List String × List String × Option String × Int × Option VesselInfo × Option AircraftInfo :=
  (r.programs, r.legal_authorities, r.sdn_type, r.sdn_entry_id, r.vessel_info, r.aircraft_info)

/-- The record components preserved by the whole identity and feature
phases. -/
def core_of (r : SdnRecord) : List String × List String × Option String × Int :=
  (r.programs, r.legal_authorities, r.sdn_type, r.sdn_entry_id)

theorem core_of_eq_of_fold_invariant {r r2 : SdnRecord}
    (h : fold_invariant_of r = fold_invariant_of r2) : core_of r = core_of r2 := by
  unfold fold_invariant_of at h
  unfold core_of
  injection h with h1 h
  injection h with h2 h
  injection h with h3 h
  injection h with h4 h
  rw [h1, h2, h3, h4]

theorem fold_invariant_documented_name_step (at1 aq : String) (ip : Bool)
    (nm sv : RefMap) (r : SdnRecord) (dn : Xml) :
    fold_invariant_of (documented_name_step at1 aq ip nm sv r dn) = fold_invariant_of r := by
  unfold documented_name_step
  dsimp only
  split
  · rfl
  · split <;> rfl

theorem fold_invariant_alias_step (ats sv nm : RefMap) (r : SdnRecord) (al : Xml) :
    fold_invariant_of (alias_step ats sv nm r al) = fold_invariant_of r := by
  unfold alias_step
  exact foldl_preserve fold_invariant_of _
    (fun a b => fold_invariant_documented_name_step _ _ _ _ _ a b) _ r

theorem fold_invariant_parse_identity (ie : Xml) (r : SdnRecord) (ats sv npt : RefMap) :
    fold_invariant_of (_parse_identity ie r ats sv npt) = fold_invariant_of r := by
  unfold _parse_identity
  exact foldl_preserve fold_invariant_of _
    (fun a b => fold_invariant_alias_step _ _ _ a b) _ r

theorem fold_invariant_apply_location (loc : AddressRec) (ft : String) (r : SdnRecord) :
    fold_invariant_of (_apply_location loc ft r) = fold_invariant_of r := by
  unfold _apply_location
  dsimp only
  split
  · split <;> rfl
  · split <;> rfl

theorem fold_invariant_vdc_step (ft : String) (lm : List (String × AddressRec))
    (dm : List (String × IdDoc)) (r : SdnRecord) (vdc : Xml) :
    fold_invariant_of (version_detail_child_step ft lm dm r vdc) = fold_invariant_of r := by
  unfold version_detail_child_step
  dsimp only
  split
  · split
    · split
      · rw [fold_invariant_apply_location]
      · rfl
    · rfl
  · split
    · split
      · split <;> rfl
      · rfl
    · rfl

theorem fold_invariant_feature_version_child (ft : String) (cv : RefMap)
    (lm : List (String × AddressRec)) (dm : List (String × IdDoc))
    (st : SdnRecord × String) (fvc : Xml) :
    fold_invariant_of (feature_version_child ft cv lm dm st fvc).1 = fold_invariant_of st.1 := by
  unfold feature_version_child
  dsimp only
  split
  · rfl
  · split
    · split
      · split <;> rfl
      · rfl
    · split
      · dsimp only
        rw [foldl_preserve fold_invariant_of _
          (fun a b => fold_invariant_vdc_step ft lm dm a b)]
        split
        · split
          · split <;> rfl
          · split
            · split <;> rfl
            · rfl
        · rfl
      · by_cases hvl : fvc.tag = ("VersionLocation")
        · rw [if_pos hvl]
          by_cases hloc : fvc.attrD ("LocationID") ("") ≠ ("")
          · rw [if_pos hloc]
            cases dlookup lm (fvc.attrD ("LocationID") ("")) with
            | some loc =>
              dsimp only
              rw [fold_invariant_apply_location]
            | none => rfl
          · rw [if_neg hloc]
        · rw [if_neg hvl]

theorem fold_invariant_feature_version_step (ft : String) (cv : RefMap)
    (lm : List (String × AddressRec)) (dm : List (String × IdDoc)) (st : FState) (fv : Xml) :
    fold_invariant_of (feature_version_step ft cv lm dm st fv).record
      = fold_invariant_of st.record := by
  have hr1 : fold_invariant_of
      (fv.children.foldl (feature_version_child ft cv lm dm) (st.record, (""))).1
      = fold_invariant_of st.record :=
    foldl_preserve (fun p => fold_invariant_of p.1) (feature_version_child ft cv lm dm)
      (fun a b => fold_invariant_feature_version_child ft cv lm dm a b)
      fv.children (st.record, (""))
  unfold feature_version_step
  dsimp only
  repeat' split
  all_goals exact hr1

theorem fold_invariant_feature_step (ftm cv : RefMap) (lm : List (String × AddressRec))
    (dm : List (String × IdDoc)) (st : FState) (f : Xml) :
    fold_invariant_of (feature_step ftm cv lm dm st f).record = fold_invariant_of st.record := by
  unfold feature_step
  exact foldl_preserve (fun s => fold_invariant_of s.record) _
    (fun a b => fold_invariant_feature_version_step _ _ _ _ a b) _ st

theorem core_parse_features (p : Xml) (r : SdnRecord) (ftm cv : RefMap)
    (lm : List (String × AddressRec)) (dm : List (String × IdDoc)) :
    core_of (_parse_features p r ftm cv lm dm) = core_of r := by
  have hst : fold_invariant_of
      ((iter_tag p ("Feature")).foldl (feature_step ftm cv lm dm) (FState.mk r [] [] [])).record
      = fold_invariant_of r :=
    foldl_preserve (fun s => fold_invariant_of s.record) _
      (fun a b => fold_invariant_feature_step _ _ _ _ a b) _ (FState.mk r [] [] [])
  have hcore := core_of_eq_of_fold_invariant hst
  unfold _parse_features
  dsimp only
  repeat' split
  all_goals exact hcore

theorem core_parse_identity (ie : Xml) (r : SdnRecord) (ats sv npt : RefMap) :
    core_of (_parse_identity ie r ats sv npt) = core_of r :=
  core_of_eq_of_fold_invariant (fold_invariant_parse_identity ie r ats sv npt)

theorem profile_step_core (psub : RefMap) (smap : List (String × SanctionsData))
    (ats sv npt ftm cv : RefMap) (lm : List (String × AddressRec))
    (dm : List (String × IdDoc)) (r : SdnRecord) (pf : Xml) (hp : pf.tag = ("Profile")) :
    core_of (profile_step psub smap ats sv npt ftm cv lm dm r pf)
      = (match dlookup smap (pf.attrD ("ID") ("")) with
         | some se => (se.programs, se.legal_authorities,
             dlookup psub (pf.attrD ("PartySubTypeID") ("")), r.sdn_entry_id)
         | none => (r.programs, r.legal_authorities,
             dlookup psub (pf.attrD ("PartySubTypeID") ("")), r.sdn_entry_id)) := by
  unfold profile_step
  rw [if_pos hp]
  dsimp only
  rw [core_parse_features]
  rw [foldl_preserve core_of _
    (fun a b => core_parse_identity b a ats sv npt)]
  cases dlookup smap (pf.attrD ("ID") ("")) <;> rfl

theorem profile_step_entry_id (psub : RefMap) (smap : List (String × SanctionsData))
    (ats sv npt ftm cv : RefMap) (lm : List (String × AddressRec))
    (dm : List (String × IdDoc)) (r : SdnRecord) (c : Xml) :
    (profile_step psub smap ats sv npt ftm cv lm dm r c).sdn_entry_id = r.sdn_entry_id := by
  by_cases hp : c.tag = ("Profile")
  · have h := congrArg (fun t => t.2.2.2) (profile_step_core psub smap ats sv npt ftm cv lm dm r c hp)
    dsimp only at h
    have h2 : (profile_step psub smap ats sv npt ftm cv lm dm r c).sdn_entry_id
        = (core_of (profile_step psub smap ats sv npt ftm cv lm dm r c)).2.2.2 := rfl
    rw [h2, h]
    cases dlookup smap (c.attrD ("ID") ("")) <;> rfl
  · unfold profile_step
    rw [if_neg hp]

theorem emit_party_entry_id (psub : RefMap) (smap : List (String × SanctionsData))
    (ats sv npt ftm cv : RefMap) (lm : List (String × AddressRec))
    (dm : List (String × IdDoc)) (pub : Option String) (ts : String) (n : Int) (dp : Xml) :
    (emit_party psub smap ats sv npt ftm cv lm dm pub ts n dp).sdn_entry_id = n := by
  unfold emit_party
  rw [foldl_preserve (fun r => r.sdn_entry_id) _
    (fun a b => profile_step_entry_id psub smap ats sv npt ftm cv lm dm a b)]
  rfl

theorem emit_party_single_core (psub : RefMap) (smap : List (String × SanctionsData))
    (ats sv npt ftm cv : RefMap) (lm : List (String × AddressRec))
    (dm : List (String × IdDoc)) (pub : Option String) (ts : String) (n : Int)
    (dp pf : Xml) (hch : dp.children = [pf]) (hp : pf.tag = ("Profile")) :
    core_of (emit_party psub smap ats sv npt ftm cv lm dm pub ts n dp)
      = (match dlookup smap (pf.attrD ("ID") ("")) with
         | some se => (se.programs, se.legal_authorities,
             dlookup psub (pf.attrD ("PartySubTypeID") ("")), n)
         | none => ([], [], dlookup psub (pf.attrD ("PartySubTypeID") ("")), n)) := by
  unfold emit_party
  rw [hch, List.foldl_cons, List.foldl_nil]
  rw [profile_step_core psub smap ats sv npt ftm cv lm dm _ pf hp]
  cases dlookup smap (pf.attrD ("ID") ("")) <;> rfl

/-- Both components of a sanctions-map lookup, characterized by the
spec-side accumulations. -/
theorem sanctions_map_lookup_spec (root : Xml) (lbm : RefMap) (pid : String)
    (hpid : pid ≠ ("")) (sd : SanctionsData)
    (hsd : dlookup (_build_sanctions_map root lbm) pid = some sd) :
    sd.programs = programs_spec root pid
    ∧ sd.legal_authorities = legal_authorities_spec root lbm pid := by
  have h := smap_fold_data lbm pid hpid (sanctions_entries_children root) []
  rw [build_sanctions_map_eq_fold] at hsd
  rw [hsd] at h
  by_cases hemp : (entries_for pid (sanctions_entries_children root)).isEmpty = true
  · rw [if_pos hemp] at h
    simp [dlookup] at h
  · rw [if_neg hemp] at h
    simp only [dlookup, List.find?_nil, Option.map_none, Option.map_some, Option.getD_none] at h
    injection h with h
    injection h with h1 h2
    exact ⟨h1, h2⟩

/-- C1: for every profile id present in the first SanctionsEntries
block, the sanctions map carries as its programs exactly the trimmed
non-empty SanctionsMeasure Comment texts accumulated over all entries
sharing that ProfileID, deduplicated in first-seen order, and the
emitted party whose Profile ID equals that ProfileID receives exactly
that list as its programs. -/
theorem claim_C1 (root : Xml) (lbm : RefMap) (pid : String) (hpid : pid ≠ (""))
    (sd : SanctionsData)
    (hsd : dlookup (_build_sanctions_map root lbm) pid = some sd)
    (psub ats sv npt ftm cv : RefMap) (lm : List (String × AddressRec))
    (dm : List (String × IdDoc)) (pub : Option String) (ts : String) (n : Int)
    (dp pf : Xml) (hch : dp.children = [pf]) (hp : pf.tag = ("Profile"))
    (hid : pf.attrD ("ID") ("") = pid) :
    sd.programs = programs_spec root pid
    ∧ (emit_party psub (_build_sanctions_map root lbm) ats sv npt ftm cv lm dm
        pub ts n dp).programs = programs_spec root pid := by
  have hmain := (sanctions_map_lookup_spec root lbm pid hpid sd hsd).1
  refine ⟨hmain, ?_⟩
  have hc := emit_party_single_core psub (_build_sanctions_map root lbm) ats sv npt ftm cv
    lm dm pub ts n dp pf hch hp
  rw [hid, hsd] at hc
  have h1 := congrArg (fun t => t.1) hc
  dsimp only at h1
  have h2 : (emit_party psub (_build_sanctions_map root lbm) ats sv npt ftm cv lm dm
      pub ts n dp).programs
      = (core_of (emit_party psub (_build_sanctions_map root lbm) ats sv npt ftm cv lm dm
        pub ts n dp)).1 := rfl
  rw [h2, h1, hmain]

/-- C4: for every SanctionsEntry, the accumulated legal authorities are
exactly the resolutions of the LegalBasisID attribute carried on each
EntryEvent element itself (not on a child), looked up in the
LegalBasisValues table, kept when non-empty and deduplicated in
first-seen order; the same shape holds for the per-profile accumulation
in the sanctions map. -/
theorem claim_C4 (lbm : RefMap) (entry : Xml) (root : Xml) (pid : String)
    (hpid : pid ≠ ("")) (sd : SanctionsData)
    (hsd : dlookup (_build_sanctions_map root lbm) pid = some sd) :
    (sanctions_entry_data lbm entry).legal_authorities
      = dedup_extend [] ((entry_event_resolved lbm entry).filter (fun s => s ≠ ("")))
    ∧ sd.legal_authorities = legal_authorities_spec root lbm pid :=
  ⟨sanctions_entry_legal lbm entry,
   (sanctions_map_lookup_spec root lbm pid hpid sd hsd).2⟩

/-- Shorthand constructor for concrete test documents. -/
def xe (tag : String) (attrs : List (String × String)) (text : String)
    (children : List Xml) : Xml :=
  Xml.mk tag attrs text children

/-- Concrete input for the C1 witness: the dedup scenario of the spec,
two SanctionsEntry blocks for ProfileID P1 with Measure comments SDGT
and SDGT, IFSR. -/
def c1root : Xml := xe ("root") [] ("") [
  xe ("SanctionsEntries") [] ("") [
    xe ("SanctionsEntry") [(("ProfileID"), ("P1"))] ("") [
      xe ("SanctionsMeasure") [] ("") [xe ("Comment") [] ("SDGT") []]],
    xe ("SanctionsEntry") [(("ProfileID"), ("P1"))] ("") [
      xe ("SanctionsMeasure") [] ("") [xe ("Comment") [] ("SDGT") []],
      xe ("SanctionsMeasure") [] ("") [xe ("Comment") [] ("IFSR") []]]]]

/-- The party element for the C1 witness, one Profile with ID P1. -/
def c1profile : Xml := xe ("Profile") [(("ID"), ("P1"))] ("") []

def c1party : Xml := xe ("DistinctParty") [(("FixedRef"), ("42"))] ("") [c1profile]

theorem claim_C1_witness :
    (SanctionsData.mk [("SDGT"), ("IFSR")] [] ("")).programs = programs_spec c1root ("P1")
    ∧ (emit_party [] (_build_sanctions_map c1root []) [] [] [] [] [] [] [] none ("ts") 42
        c1party).programs = programs_spec c1root ("P1") :=
  claim_C1 c1root [] ("P1") (by decide) (SanctionsData.mk [("SDGT"), ("IFSR")] [] (""))
    (by decide) [] [] [] [] [] [] [] [] none ("ts") 42 c1party c1profile rfl
    (by decide) (by decide)

/-- Concrete input for the C4 witness: one entry whose EntryEvent
carries LegalBasisID L1 resolving to a short reference. -/
def c4root : Xml := xe ("root") [] ("") [
  xe ("SanctionsEntries") [] ("") [
    xe ("SanctionsEntry") [(("ProfileID"), ("P2"))] ("") [
      xe ("EntryEvent") [(("LegalBasisID"), ("L1"))] ("") []]]]

def c4entry : Xml := xe ("SanctionsEntry") [(("ProfileID"), ("P2"))] ("") [
  xe ("EntryEvent") [(("LegalBasisID"), ("L1"))] ("") []]

def c4lbm : RefMap := [(("L1"), ("E.O. 13224"))]

theorem claim_C4_witness :
    (sanctions_entry_data c4lbm c4entry).legal_authorities
      = dedup_extend [] ((entry_event_resolved c4lbm c4entry).filter (fun s => s ≠ ("")))
    ∧ (SanctionsData.mk [] [("E.O. 13224")] ("")).legal_authorities
      = legal_authorities_spec c4root c4lbm ("P2") :=
  claim_C4 c4lbm c4entry c4root ("P2") (by decide)
    (SanctionsData.mk [] [("E.O. 13224")] ("")) (by decide)

/-- C2: after the value sets of the reference resolver are parsed, every
PartySubTypeValues entry whose text is empty or the literal Unknown is
replaced by the PartyTypeValues lookup of its PartyTypeID (with the raw
text kept when even that lookup fails), before the table is exposed;
hence a party whose PartySubType text is Unknown gets the PartyType
text as its sdn_type. -/
theorem claim_C2 (root : Xml) (id text ptid : String) (ptv : RefMap)
    (hraw : dlookup (raw_party_subtypes_of root) id = some (text, ptid))
    (hunk : text = ("") ∨ text = ("Unknown"))
    (hptv : dlookup (ref_sets_state root).1 ("PartyTypeValues") = some ptv)
    (smap : List (String × SanctionsData)) (ats sv npt ftm cv : RefMap)
    (lm : List (String × AddressRec)) (dm : List (String × IdDoc))
    (r : SdnRecord) (pf : Xml) :
    dlookup ((dlookup (_build_ref_maps root) ("PartySubTypeValues")).getD []) id
      = some ((dlookup ptv ptid).getD text)
    ∧ (pf.tag = ("Profile") → pf.attrD ("PartySubTypeID") ("") = id →
       (profile_step ((dlookup (_build_ref_maps root) ("PartySubTypeValues")).getD [])
         smap ats sv npt ftm cv lm dm r pf).sdn_type
         = some ((dlookup ptv ptid).getD text)) := by
  have hraw_ne : (ref_sets_state root).2 ≠ [] := by
    intro hnil
    unfold raw_party_subtypes_of at hraw
    rw [hnil] at hraw
    simp [dlookup] at hraw
  have hmain : dlookup ((dlookup (_build_ref_maps root) ("PartySubTypeValues")).getD []) id
      = some ((dlookup ptv ptid).getD text) := by
    unfold _build_ref_maps
    rw [if_pos ⟨hraw_ne, by rw [hptv]; rfl⟩]
    rw [dlookup_dinsert_self]
    simp only [Option.getD_some]
    rw [hptv]
    simp only [Option.getD_some]
    rw [show subtype_resolve ptv = (fun p => (p.1, (subtype_resolve ptv p).2)) from rfl]
    rw [dlookup_map_keyed (fun p => (subtype_resolve ptv p).2) (ref_sets_state root).2 id]
    unfold raw_party_subtypes_of at hraw
    unfold dlookup at hraw
    cases hq : (ref_sets_state root).2.find? (fun p => p.1 = id) with
    | none =>
      rw [hq] at hraw
      simp at hraw
    | some q =>
      rw [hq] at hraw
      simp only [Option.map_some'] at hraw
      injection hraw with hraw2
      simp only [Option.map_some']
      unfold subtype_resolve
      dsimp only
      rw [hraw2]
      dsimp only
      rcases hunk with h | h
      · rw [if_neg (fun hand => hand.1 h)]
      · rw [if_neg (fun hand => hand.2 h)]
  refine ⟨hmain, fun hp hpid2 => ?_⟩
  have hcore := profile_step_core
    ((dlookup (_build_ref_maps root) ("PartySubTypeValues")).getD [])
    smap ats sv npt ftm cv lm dm r pf hp
  have h3 := congrArg (fun t => t.2.2.1) hcore
  dsimp only at h3
  have h2 : (profile_step ((dlookup (_build_ref_maps root) ("PartySubTypeValues")).getD [])
      smap ats sv npt ftm cv lm dm r pf).sdn_type
      = (core_of (profile_step ((dlookup (_build_ref_maps root) ("PartySubTypeValues")).getD [])
        smap ats sv npt ftm cv lm dm r pf)).2.2.1 := rfl
  rw [h2, h3]
  cases dlookup smap (pf.attrD ("ID") ("")) with
  | some se =>
    dsimp only
    rw [hpid2, hmain]
  | none =>
    dsimp only
    rw [hpid2, hmain]

/-- Concrete input for the C2 witness: a PartyType Individual and a
PartySubType with text Unknown cross-referencing it. -/
def c2root : Xml := xe ("root") [] ("") [
  xe ("ReferenceValueSets") [] ("") [
    xe ("PartyTypeValues") [] ("") [xe ("PartyType") [(("ID"), ("1"))] ("Individual") []],
    xe ("PartySubTypeValues") [] ("") [
      xe ("PartySubType") [(("ID"), ("4")), (("PartyTypeID"), ("1"))] ("Unknown") []]]]

def c2profile : Xml := xe ("Profile") [(("ID"), ("42")), (("PartySubTypeID"), ("4"))] ("") []

theorem claim_C2_witness :
    dlookup ((dlookup (_build_ref_maps c2root) ("PartySubTypeValues")).getD []) ("4")
      = some ((dlookup [(("1"), ("Individual"))] ("1")).getD ("Unknown"))
    ∧ (c2profile.tag = ("Profile") → c2profile.attrD ("PartySubTypeID") ("") = ("4") →
       (profile_step ((dlookup (_build_ref_maps c2root) ("PartySubTypeValues")).getD [])
         [] [] [] [] [] [] [] [] (init_record 42 none ("ts")) c2profile).sdn_type
         = some ((dlookup [(("1"), ("Individual"))] ("1")).getD ("Unknown"))) :=
  claim_C2 c2root ("4") ("Unknown") ("1") [(("1"), ("Individual"))]
    (by decide) (Or.inr rfl) (by decide) [] [] [] [] [] [] [] []
    (init_record 42 none ("ts")) c2profile

/-- Concrete input for the C3 counterexample: an Alias whose
AliasTypeID 77 is not in the (empty) alias-type table. -/
def c3identity : Xml := xe ("Identity") [] ("") [
  xe ("Alias") [(("AliasTypeID"), ("77"))] ("") [
    xe ("DocumentedName") [] ("") [
      xe ("DocumentedNamePart") [] ("") [
        xe ("NamePartValue") [] ("SMITH") []]]]]

/-- C3 counterexample: an @AliasTypeID not found in its lookup table is
not resolved to the empty string: the emitted alias row carries the
non-empty default text a.k.a., so the claim that every unknown @...ID
silently maps to null/empty in the output fails. -/
theorem claim_C3_counterexample :
    ((_parse_identity c3identity (init_record 1 none ("ts")) [] [] []).aliases).map
      (fun a => a.alias_type) = [("a.k.a.")]
    ∧ ("a.k.a.") ≠ ("") :=
  ⟨by decide, by decide⟩

/-- C3 as amended: lookups into the empty-defaulting tables behave as
the claim says — an unknown @PartySubTypeID yields a null sdn_type
(the dict.get has no default) and an unknown EntryEvent @LegalBasisID
contributes nothing to legal_authorities (and @SanctionsProgramID is
never consulted by the Comment-based program path) — but the alias-type
lookup instead falls back to the non-empty literal a.k.a., so any alias
row added for an unknown @AliasTypeID carries that text. -/
theorem claim_C3 (psub : RefMap) (smap : List (String × SanctionsData))
    (ats sv npt ftm cv : RefMap) (lm : List (String × AddressRec))
    (dm : List (String × IdDoc)) (r : SdnRecord) (pf : Xml) (lbm : RefMap)
    (sd : SanctionsData) (ev : Xml) (aid aq : String) (ip : Bool) (nm sv2 : RefMap)
    (r2 : SdnRecord) (dn : Xml) (a : AliasRec) :
    (pf.tag = ("Profile") → dlookup psub (pf.attrD ("PartySubTypeID") ("")) = none →
      (profile_step psub smap ats sv npt ftm cv lm dm r pf).sdn_type = none)
    ∧ (ev.tag = ("EntryEvent") → dlookup lbm (ev.attrD ("LegalBasisID") ("")) = none →
      sanctions_entry_step lbm sd ev = sd)
    ∧ (dlookup ats aid = none →
      a ∈ (documented_name_step ((dlookup ats aid).getD ("a.k.a.")) aq ip nm sv2
        r2 dn).aliases →
      a ∈ r2.aliases ∨ a.alias_type = ("a.k.a.")) := by
  refine ⟨fun hp hnone => ?_, fun hev hnone => ?_, fun hnone hmem => ?_⟩
  · have hcore := profile_step_core psub smap ats sv npt ftm cv lm dm r pf hp
    have h3 := congrArg (fun t => t.2.2.1) hcore
    dsimp only at h3
    have h2 : (profile_step psub smap ats sv npt ftm cv lm dm r pf).sdn_type
        = (core_of (profile_step psub smap ats sv npt ftm cv lm dm r pf)).2.2.1 := rfl
    rw [h2, h3]
    cases dlookup smap (pf.attrD ("ID") ("")) <;> exact hnone
  · have hne : ¬ ev.tag = ("SanctionsMeasure") := by rw [hev]; decide
    unfold sanctions_entry_step
    rw [if_neg hne, if_pos hev]
    dsimp only
    by_cases hid : ev.attrD ("LegalBasisID") ("") ≠ ("")
    · rw [if_pos hid, hnone]
    · rw [if_neg hid]
  · unfold documented_name_step at hmem
    dsimp only at hmem
    split at hmem
    · exact Or.inl hmem
    · split at hmem
      · exact Or.inl hmem
      · rcases List.mem_append.mp hmem with h | h
        · exact Or.inl h
        · right
          have ha : a = AliasRec.mk ((dlookup ats aid).getD ("a.k.a.")) aq
              (full_name_of nm sv2 dn) (name_parts_of nm sv2 dn) := by
            simpa using h
          rw [ha, hnone]
          rfl

def c3pf : Xml := xe ("Profile") [(("ID"), ("9")), (("PartySubTypeID"), ("9"))] ("") []

def c3ev : Xml := xe ("EntryEvent") [(("LegalBasisID"), ("L9"))] ("") []

def c3dn : Xml := xe ("DocumentedName") [] ("") [
  xe ("DocumentedNamePart") [] ("") [xe ("NamePartValue") [] ("SMITH") []]]

def c3row : AliasRec :=
  AliasRec.mk ("a.k.a.") ("strong") ("SMITH") [NamePart.mk ("Name") ("SMITH") ("")]

theorem claim_C3_witness :
    ((profile_step [] [] [] [] [] [] [] [] [] (init_record 7 none ("ts")) c3pf).sdn_type = none)
    ∧ (sanctions_entry_step [] (SanctionsData.mk [] [] ("")) c3ev = SanctionsData.mk [] [] (""))
    ∧ (c3row ∈ (init_record 7 none ("ts")).aliases ∨ c3row.alias_type = ("a.k.a.")) := by
  have h := claim_C3 [] [] [] [] [] [] [] [] [] (init_record 7 none ("ts")) c3pf []
    (SanctionsData.mk [] [] ("")) c3ev ("77") ("strong") false [] []
    (init_record 7 none ("ts")) c3dn c3row
  exact ⟨h.1 (by decide) (by decide), h.2.1 (by decide) (by decide),
    h.2.2 (by decide) (by decide)⟩

/-! Spec-side formulation of the date-period decoder (claim C9). -/

/-- The Start/End boundaries of a DatePeriod, document order. -/
def date_boundaries (dp : Xml) : List Xml :=
  dp.children.filter (fun b => b.tag = ("Start") ∨ b.tag = ("End"))

/-- The (year, month, day) trimmed texts of a boundary's From child,
none when it has no From child. -/
def boundary_ymd (b : Xml) : Option (String × String × String) :=
  (find_tag b ("From")).map (fun fe =>
    ((dlookup (boundary_parts fe) ("Year")).getD (""),
     (dlookup (boundary_parts fe) ("Month")).getD (""),
     (dlookup (boundary_parts fe) ("Day")).getD ("")))

/-- The formatting rule: zero-pad month and day to width two when
present, then the most specific of year-month-day, year-month, year. -/
def format_ymd (t : String × String × String) : String :=
  let month := if t.2.1 ≠ ("") then zfill2 t.2.1 else ("")
  let day := if t.2.2 ≠ ("") then zfill2 t.2.2 else ("")
  if month ≠ ("") ∧ day ≠ ("") then t.1 ++ ("-") ++ month ++ ("-") ++ day
  else if month ≠ ("") then t.1 ++ ("-") ++ month
  else t.1

/-- Spec side of claim C9: format the first boundary whose From has a
non-empty Year, null when there is none. -/
def date_period_spec (dp : Xml) : Option String :=
  (((date_boundaries dp).filterMap boundary_ymd).find? (fun t => t.1 ≠ (""))).map format_ymd

theorem zfill2_ne_empty (s : String) (h : s ≠ ("")) : zfill2 s ≠ ("") := by
  unfold zfill2
  split
  · exact h
  · split
    · decide
    · split
      · intro hc
        have hd := congrArg String.data hc
        simp at hd
      · intro hc
        have hd := congrArg String.data hc
        simp at hd
    · exact h

theorem month_match_eq (o : Option String) :
    (match o with
      | some m => if m ≠ ("") then zfill2 m else ("")
      | none => (""))
      = (if o.getD ("") ≠ ("") then zfill2 (o.getD ("")) else ("")) := by
  cases o with
  | none => simp
  | some m => rfl

theorem parse_go_eq (children : List Xml) :
    parse_date_period_go children
      = (((children.filter (fun b => b.tag = ("Start") ∨ b.tag = ("End"))).filterMap
          boundary_ymd).find? (fun t => t.1 ≠ (""))).map format_ymd := by
  induction children with
  | nil => rfl
  | cons b rest ih =>
    by_cases hb : b.tag = ("Start") ∨ b.tag = ("End")
    · rw [List.filter_cons_of_pos (by simpa using hb)]
      unfold parse_date_period_go
      rw [if_pos hb]
      cases hf : find_tag b ("From") with
      | none =>
        have hymd : boundary_ymd b = none := by
          unfold boundary_ymd
          rw [hf]
          rfl
        simp only [List.filterMap_cons, hymd]
        exact ih
      | some fe =>
        have hymd : boundary_ymd b = some
            ((dlookup (boundary_parts fe) ("Year")).getD (""),
             (dlookup (boundary_parts fe) ("Month")).getD (""),
             (dlookup (boundary_parts fe) ("Day")).getD ("")) := by
          unfold boundary_ymd
          rw [hf]
          rfl
        simp only [List.filterMap_cons, hymd]
        by_cases hy : (dlookup (boundary_parts fe) ("Year")).getD ("") = ("")
        · rw [if_pos hy]
          rw [List.find?_cons_of_neg _ (by simpa using hy)]
          exact ih
        · rw [if_neg hy]
          rw [List.find?_cons_of_pos _ (by simpa using hy)]
          rw [month_match_eq, month_match_eq]
          simp only [Option.map_some']
          unfold format_ymd
          dsimp only
          rw [apply_ite some, apply_ite some]
    · rw [List.filter_cons_of_neg (by simpa using hb)]
      unfold parse_date_period_go
      rw [if_neg hb]
      exact ih

/-- C9: the decoder walks the Start/End boundaries in document order
and takes the first whose From child has a non-empty Year; month and
day are zero-padded to width two when present; the result is
year-month-day when all three are present, year-month when only year
and month, the year alone otherwise, and null when no boundary has a
year. -/
theorem claim_C9 (dp : Xml) :
    _parse_date_period dp = date_period_spec dp
    ∧ (((date_boundaries dp).filterMap boundary_ymd).find? (fun t => t.1 ≠ ("")) = none →
        _parse_date_period dp = none)
    ∧ (∀ t, ((date_boundaries dp).filterMap boundary_ymd).find? (fun t => t.1 ≠ ("")) = some t →
        (t.2.1 ≠ ("") ∧ t.2.2 ≠ ("") →
          _parse_date_period dp = some (t.1 ++ ("-") ++ zfill2 t.2.1 ++ ("-") ++ zfill2 t.2.2))
        ∧ (t.2.1 ≠ ("") ∧ t.2.2 = ("") →
          _parse_date_period dp = some (t.1 ++ ("-") ++ zfill2 t.2.1))
        ∧ (t.2.1 = ("") → _parse_date_period dp = some t.1)) := by
  have heq : _parse_date_period dp = date_period_spec dp := by
    unfold _parse_date_period date_period_spec date_boundaries
    exact parse_go_eq dp.children
  refine ⟨heq, fun hn => ?_, fun t ht => ⟨fun hmd => ?_, fun hm => ?_, fun hy => ?_⟩⟩
  · rw [heq]
    unfold date_period_spec
    rw [hn]
    rfl
  · rw [heq]
    unfold date_period_spec
    rw [ht]
    simp only [Option.map_some']
    unfold format_ymd
    dsimp only
    rw [if_pos hmd.1, if_pos hmd.2]
    rw [if_pos ⟨zfill2_ne_empty _ hmd.1, zfill2_ne_empty _ hmd.2⟩]
  · rw [heq]
    unfold date_period_spec
    rw [ht]
    simp only [Option.map_some']
    unfold format_ymd
    dsimp only
    have hday : ¬ (t.2.2 ≠ ("")) := by simp [hm.2]
    rw [if_pos hm.1, if_neg hday]
    have hc1 : ¬ (zfill2 t.2.1 ≠ ("") ∧ (("") : String) ≠ ("")) := fun hand => hand.2 rfl
    rw [if_neg hc1]
    rw [if_pos (zfill2_ne_empty _ hm.1)]
  · rw [heq]
    unfold date_period_spec
    rw [ht]
    simp only [Option.map_some']
    unfold format_ymd
    dsimp only
    have hmn : ¬ (t.2.1 ≠ ("")) := by simp [hy]
    rw [if_neg hmn]
    have hc1 : ¬ ((("") : String) ≠ ("")
        ∧ (if t.2.2 ≠ ("") then zfill2 t.2.2 else ("")) ≠ ("")) := fun hand => hand.1 rfl
    rw [if_neg hc1]
    have hc2 : ¬ ((("") : String) ≠ ("")) := fun hh => hh rfl
    rw [if_neg hc2]

/-- Concrete input for the C9 witness: the spec's date scenario, a
Start boundary 1957-7-30 and an End boundary 1958. -/
def c9dp : Xml := xe ("DatePeriod") [] ("") [
  xe ("Start") [] ("") [xe ("From") [] ("") [
    xe ("Year") [] ("1957") [], xe ("Month") [] ("7") [], xe ("Day") [] ("30") []]],
  xe ("End") [] ("") [xe ("From") [] ("") [xe ("Year") [] ("1958") []]]]

theorem claim_C9_witness :
    _parse_date_period c9dp = date_period_spec c9dp
    ∧ _parse_date_period c9dp
        = some ((("1957") ++ ("-") ++ zfill2 ("7") ++ ("-") ++ zfill2 ("30"))) :=
  ⟨(claim_C9 c9dp).1,
   ((claim_C9 c9dp).2.2 ((("1957"), ("7"), ("30"))) (by decide)).1 (by decide)⟩

/-! Lemmas for the stable name-part sort (claim C6). -/

theorem name_part_order_key_le (s : String) : name_part_order_key s ≤ 99 := by
  unfold name_part_order_key
  cases hl : dlookup NAME_PART_ORDER s with
  | none => simp
  | some v =>
    simp only [Option.getD_some]
    unfold dlookup at hl
    cases hq : NAME_PART_ORDER.find? (fun p => p.1 = s) with
    | none => rw [hq] at hl; simp at hl
    | some q =>
      rw [hq] at hl
      simp only [Option.map_some'] at hl
      have hmem := List.mem_of_find?_eq_some hq
      have hall : ∀ q2 ∈ NAME_PART_ORDER, q2.2 ≤ 99 := by decide
      injection hl with hl2
      rw [← hl2]
      exact hall q hmem

theorem raw_part_mem (npg_map script_values : RefMap) (dn : Xml) (p : RawPart)
    (hp : p ∈ doc_name_raw_parts npg_map script_values dn) :
    p.sort_key ≤ 99 ∧ p.value ≠ ("") := by
  unfold doc_name_raw_parts at hp
  rcases List.mem_flatMap.mp hp with ⟨dnp, _, hp2⟩
  rcases List.mem_filterMap.mp hp2 with ⟨npv, _, hp3⟩
  by_cases hv : pyStrip npv.text ≠ ("")
  · rw [if_pos hv] at hp3
    injection hp3 with hp4
    constructor
    · rw [← hp4]
      exact name_part_order_key_le _
    · rw [← hp4]
      exact hv
  · rw [if_neg hv] at hp3
    exact absurd hp3 (by simp)

theorem flatMap_filter {α : Type} (ks : List Nat) (g : Nat → List α) (pred : α → Bool) :
    (ks.flatMap g).filter pred = ks.flatMap (fun k => (g k).filter pred) := by
  induction ks with
  | nil => rfl
  | cons k ks ih => simp [List.flatMap_cons, List.filter_append, ih]

theorem flatMap_ite_nil {α : Type} (ks : List Nat) (k : Nat) (F : List α)
    (hk : k ∉ ks) : (ks.flatMap (fun j => if j = k then F else [])) = [] := by
  induction ks with
  | nil => rfl
  | cons j ks ih =>
    rw [List.flatMap_cons]
    rw [if_neg (fun hh => hk (by rw [← hh]; exact List.mem_cons_self j ks))]
    rw [List.nil_append]
    exact ih (fun hh => hk (List.mem_cons_of_mem j hh))

theorem flatMap_ite_single {α : Type} (ks : List Nat) (k : Nat) (F : List α)
    (hnd : ks.Nodup) (hk : k ∈ ks) :
    (ks.flatMap (fun j => if j = k then F else [])) = F := by
  induction ks with
  | nil => simp at hk
  | cons j ks ih =>
    rw [List.flatMap_cons]
    rcases List.nodup_cons.mp hnd with ⟨hj, hnd2⟩
    by_cases hjk : j = k
    · rw [if_pos hjk]
      rw [flatMap_ite_nil ks k F (hjk ▸ hj)]
      simp
    · rw [if_neg hjk, List.nil_append]
      exact ih hnd2 (by rcases List.mem_cons.mp hk with h | h; exact absurd h.symm hjk; exact h)

theorem stable_sort_parts_sorted (l : List RawPart) :
    (stable_sort_parts l).Pairwise (fun p q => p.sort_key ≤ q.sort_key) := by
  unfold stable_sort_parts
  have hgen : ∀ ks : List Nat, ks.Pairwise (· < ·) →
      (ks.flatMap (fun k => l.filter (fun p => p.sort_key = k))).Pairwise
        (fun p q => p.sort_key ≤ q.sort_key) := by
    intro ks
    induction ks with
    | nil => intro _; exact List.Pairwise.nil
    | cons k ks ih =>
      intro hpw
      rcases List.pairwise_cons.mp hpw with ⟨hlt, hpw2⟩
      rw [List.flatMap_cons]
      rw [List.pairwise_append]
      refine ⟨?_, ih hpw2, ?_⟩
      · apply List.pairwise_of_forall_mem_list
        intro a ha b hb
        have ha2 := (List.mem_filter.mp ha).2
        have hb2 := (List.mem_filter.mp hb).2
        have ha3 : a.sort_key = k := by simpa using ha2
        have hb3 : b.sort_key = k := by simpa using hb2
        rw [ha3, hb3]
      · intro a ha b hb
        have ha3 : a.sort_key = k := by simpa using (List.mem_filter.mp ha).2
        rcases List.mem_flatMap.mp hb with ⟨j, hj, hb2⟩
        have hb3 : b.sort_key = j := by simpa using (List.mem_filter.mp hb2).2
        rw [ha3, hb3]
        exact Nat.le_of_lt (hlt j hj)
  exact hgen (List.range 100) (List.pairwise_lt_range 100)

theorem stable_sort_parts_stable (l : List RawPart) (k : Nat) (hk : k < 100) :
    (stable_sort_parts l).filter (fun p => p.sort_key = k)
      = l.filter (fun p => p.sort_key = k) := by
  unfold stable_sort_parts
  rw [flatMap_filter]
  have hpiece : ∀ j : Nat, (l.filter (fun p => p.sort_key = j)).filter
      (fun p => p.sort_key = k)
      = if j = k then l.filter (fun p => p.sort_key = k) else [] := by
    intro j
    by_cases hjk : j = k
    · rw [if_pos hjk, hjk]
      rw [List.filter_filter]
      apply List.filter_congr
      intro a _
      simp
    · rw [if_neg hjk]
      rw [List.filter_eq_nil_iff]
      intro a ha
      have ha2 : a.sort_key = j := by simpa using (List.mem_filter.mp ha).2
      simp [ha2, hjk]
  rw [show (fun j => (l.filter (fun p => p.sort_key = j)).filter (fun p => p.sort_key = k))
      = (fun j => if j = k then l.filter (fun p => p.sort_key = k) else [])
    from funext hpiece]
  exact flatMap_ite_single (List.range 100) k _ (List.nodup_range 100) (List.mem_range.mpr hk)

theorem stable_sort_parts_mem (l : List RawPart) (p : RawPart)
    (hp : p ∈ stable_sort_parts l) : p ∈ l := by
  unfold stable_sort_parts at hp
  rcases List.mem_flatMap.mp hp with ⟨k, _, hp2⟩
  exact (List.mem_filter.mp hp2).1

/-- C6: the collected non-empty name parts of a DocumentedName are
sorted stably by the sort key (the output is key-sorted and, within
each key, exactly the document-order sublist of that key), and
full_name is the space-join of all part values in that sorted order. -/
theorem claim_C6 (npg sv : RefMap) (dn : Xml) :
    (sorted_parts npg sv dn).Pairwise (fun p q => p.sort_key ≤ q.sort_key)
    ∧ (∀ k, k < 100 → (sorted_parts npg sv dn).filter (fun p => p.sort_key = k)
        = (doc_name_raw_parts npg sv dn).filter (fun p => p.sort_key = k))
    ∧ full_name_of npg sv dn
        = String.intercalate (" ") ((sorted_parts npg sv dn).map (fun p => p.value)) := by
  refine ⟨stable_sort_parts_sorted _, fun k hk => stable_sort_parts_stable _ k hk, ?_⟩
  unfold full_name_of
  congr 1
  apply List.filter_eq_self.mpr
  intro a ha
  rcases List.mem_map.mp ha with ⟨p, hp, hpa⟩
  have hmem : p ∈ doc_name_raw_parts npg sv dn := stable_sort_parts_mem _ p hp
  have hv := (raw_part_mem npg sv dn p hmem).2
  rw [← hpa]
  simpa using hv

/-- Concrete input for the C6 witness: the spec's name-ordering
scenario, parts in document order First USAMA then Last BIN LADIN. -/
def c6npg : RefMap := [(("g1"), ("First Name")), (("g2"), ("Last Name"))]

def c6dn : Xml := xe ("DocumentedName") [] ("") [
  xe ("DocumentedNamePart") [] ("") [
    xe ("NamePartValue") [(("NamePartGroupID"), ("g1"))] ("USAMA") []],
  xe ("DocumentedNamePart") [] ("") [
    xe ("NamePartValue") [(("NamePartGroupID"), ("g2"))] ("BIN LADIN") []]]

theorem claim_C6_witness :
    (sorted_parts c6npg [] c6dn).Pairwise (fun p q => p.sort_key ≤ q.sort_key)
    ∧ (sorted_parts c6npg [] c6dn).filter (fun p => p.sort_key = 0)
        = (doc_name_raw_parts c6npg [] c6dn).filter (fun p => p.sort_key = 0)
    ∧ full_name_of c6npg [] c6dn = ("BIN LADIN USAMA") := by
  have h := claim_C6 c6npg [] c6dn
  exact ⟨h.1, h.2.1 0 (by decide), by decide⟩

/-! Spec-side formulation of primary/alias selection (claim C7). -/

/-- The primary-name record built from one DocumentedName. -/
def mk_primary (npg sv : RefMap) (dn : Xml) : PrimaryName :=
  PrimaryName.mk (full_name_of npg sv dn) (name_parts_of npg sv dn)

/-- The alias row built from one (Alias, DocumentedName) pair. -/
def mk_alias_row (ats npg sv : RefMap) (al dn : Xml) : AliasRec :=
  AliasRec.mk (alias_type_of ats al) (alias_quality_of al)
    (full_name_of npg sv dn) (name_parts_of npg sv dn)

/-- All (Alias, DocumentedName) pairs of an Identity in document order. -/
def alias_doc_pairs (ie : Xml) : List (Xml × Xml) :=
  (iter_tag ie ("Alias")).flatMap (fun al =>
    (iter_tag al ("DocumentedName")).map (fun dn => (al, dn)))

/-- The per-pair step of the identity parser, over the flattened pairs. -/
def pair_name_step (ats npg sv : RefMap) (r : SdnRecord) (p : Xml × Xml) : SdnRecord :=
  documented_name_step (alias_type_of ats p.1) (alias_quality_of p.1)
    (is_primary_alias p.1) npg sv r p.2

/-- Spec side of claim C7: walk the pairs; skip empty names; the first
primary-flagged pair with a non-empty name becomes the primary (when
none is taken yet); every other non-empty name becomes an alias row. -/
def identity_names_spec (ats npg sv : RefMap) (taken : Bool) :
    List (Xml × Xml) → Option PrimaryName × List AliasRec
  | [] => (none, [])
  | p :: rest =>
    if full_name_of npg sv p.2 = ("") then identity_names_spec ats npg sv taken rest
    else if is_primary_alias p.1 = true ∧ taken = false then
      (some (mk_primary npg sv p.2), (identity_names_spec ats npg sv true rest).2)
    else
      ((identity_names_spec ats npg sv taken rest).1,
       mk_alias_row ats npg sv p.1 p.2 :: (identity_names_spec ats npg sv taken rest).2)

theorem foldl_ext2 {α β : Type} (f g : α → β → α) (h : ∀ a b, f a b = g a b) :
    ∀ (l : List β) (a : α), l.foldl f a = l.foldl g a := by
  intro l
  induction l with
  | nil => intro a; rfl
  | cons x xs ih => intro a; rw [List.foldl_cons, List.foldl_cons, h, ih]

theorem parse_identity_eq_pairs (ie : Xml) (r : SdnRecord) (ats sv npt : RefMap) :
    _parse_identity ie r ats sv npt
      = (alias_doc_pairs ie).foldl (pair_name_step ats (build_npg_map ie npt) sv) r := by
  unfold _parse_identity alias_doc_pairs
  rw [foldl_flatMap]
  apply foldl_ext2
  intro a al
  unfold alias_step
  rw [List.foldl_map]
  rfl

theorem dns_skip (at1 aq : String) (ip : Bool) (npg sv : RefMap) (r : SdnRecord) (dn : Xml)
    (h : full_name_of npg sv dn = ("")) :
    documented_name_step at1 aq ip npg sv r dn = r := by
  unfold documented_name_step
  dsimp only
  rw [if_pos h]

theorem dns_set_primary (at1 aq : String) (ip : Bool) (npg sv : RefMap) (r : SdnRecord)
    (dn : Xml) (hfn : ¬ full_name_of npg sv dn = ("")) (hip : ip = true)
    (hr : r.primary_name = none) :
    documented_name_step at1 aq ip npg sv r dn
      = { r with primary_name := some (mk_primary npg sv dn) } := by
  unfold documented_name_step mk_primary
  dsimp only
  rw [if_neg hfn, if_pos ⟨hip, hr⟩]

theorem dns_append (at1 aq : String) (ip : Bool) (npg sv : RefMap) (r : SdnRecord)
    (dn : Xml) (hfn : ¬ full_name_of npg sv dn = (""))
    (h : ¬ (ip = true ∧ r.primary_name = none)) :
    documented_name_step at1 aq ip npg sv r dn
      = { r with aliases := r.aliases
          ++ [AliasRec.mk at1 aq (full_name_of npg sv dn) (name_parts_of npg sv dn)] } := by
  unfold documented_name_step
  dsimp only
  rw [if_neg hfn, if_neg h]

theorem pairs_fold_spec (ats npg sv : RefMap) (pairs : List (Xml × Xml)) :
    ∀ (r : SdnRecord),
    (r.primary_name = none →
      (pairs.foldl (pair_name_step ats npg sv) r).primary_name
          = (identity_names_spec ats npg sv false pairs).1
        ∧ (pairs.foldl (pair_name_step ats npg sv) r).aliases
          = r.aliases ++ (identity_names_spec ats npg sv false pairs).2)
    ∧ (∀ q, r.primary_name = some q →
      (pairs.foldl (pair_name_step ats npg sv) r).primary_name = some q
        ∧ (pairs.foldl (pair_name_step ats npg sv) r).aliases
          = r.aliases ++ (identity_names_spec ats npg sv true pairs).2) := by
  induction pairs with
  | nil =>
    intro r
    refine ⟨fun hr => ⟨hr, by simp [identity_names_spec]⟩,
      fun q hq => ⟨hq, by simp [identity_names_spec]⟩⟩
  | cons p rest ih =>
    intro r
    constructor
    · intro hr
      rw [List.foldl_cons]
      by_cases hfn : full_name_of npg sv p.2 = ("")
      · have hstep : pair_name_step ats npg sv r p = r := dns_skip _ _ _ _ _ _ _ hfn
        rw [hstep]
        unfold identity_names_spec
        rw [if_pos hfn]
        exact (ih r).1 hr
      · by_cases hip : is_primary_alias p.1 = true
        · have hstep : pair_name_step ats npg sv r p
              = { r with primary_name := some (mk_primary npg sv p.2) } :=
            dns_set_primary _ _ _ _ _ _ _ hfn hip hr
          rw [hstep]
          unfold identity_names_spec
          rw [if_neg hfn, if_pos ⟨hip, rfl⟩]
          have hB := ((ih { r with primary_name := some (mk_primary npg sv p.2) }).2
            (mk_primary npg sv p.2) rfl)
          exact ⟨hB.1, hB.2⟩
        · have hstep : pair_name_step ats npg sv r p
              = { r with aliases := r.aliases ++ [mk_alias_row ats npg sv p.1 p.2] } :=
            dns_append _ _ _ _ _ _ _ hfn (fun hand => hip hand.1)
          rw [hstep]
          unfold identity_names_spec
          rw [if_neg hfn, if_neg (fun hand => hip hand.1)]
          have hA := (ih { r with aliases := r.aliases
            ++ [mk_alias_row ats npg sv p.1 p.2] }).1 hr
          refine ⟨hA.1, ?_⟩
          rw [hA.2]
          dsimp only
          rw [List.append_assoc]
          rfl
    · intro q hq
      rw [List.foldl_cons]
      by_cases hfn : full_name_of npg sv p.2 = ("")
      · have hstep : pair_name_step ats npg sv r p = r := dns_skip _ _ _ _ _ _ _ hfn
        rw [hstep]
        unfold identity_names_spec
        rw [if_pos hfn]
        exact (ih r).2 q hq
      · have hstep : pair_name_step ats npg sv r p
            = { r with aliases := r.aliases ++ [mk_alias_row ats npg sv p.1 p.2] } :=
          dns_append _ _ _ _ _ _ _ hfn (fun hand => by rw [hq] at hand; exact absurd hand.2 (by simp))
        rw [hstep]
        unfold identity_names_spec
        rw [if_neg hfn, if_neg (fun hand => by simp at hand)]
        have hB := (ih { r with aliases := r.aliases
          ++ [mk_alias_row ats npg sv p.1 p.2] }).2 q hq
        refine ⟨hB.1, ?_⟩
        rw [hB.2]
        dsimp only
        rw [List.append_assoc]
        rfl

theorem spec_primary_find (ats npg sv : RefMap) (pairs : List (Xml × Xml)) :
    (identity_names_spec ats npg sv false pairs).1
      = (pairs.find? (fun pr =>
          is_primary_alias pr.1 = true ∧ full_name_of npg sv pr.2 ≠ (""))).map
          (fun pr => mk_primary npg sv pr.2) := by
  induction pairs with
  | nil => rfl
  | cons p rest ih =>
    by_cases hfn : full_name_of npg sv p.2 = ("")
    · unfold identity_names_spec
      rw [if_pos hfn]
      rw [List.find?_cons_of_neg _ (by simp [hfn])]
      exact ih
    · by_cases hip : is_primary_alias p.1 = true
      · unfold identity_names_spec
        rw [if_neg hfn, if_pos ⟨hip, rfl⟩]
        rw [List.find?_cons_of_pos _ (by simp [hip, hfn])]
        rfl
      · unfold identity_names_spec
        rw [if_neg hfn, if_neg (fun hand => hip hand.1)]
        rw [List.find?_cons_of_neg _ (by simp [hip])]
        exact ih

/-- C7: with no primary name taken yet, `_parse_identity` sets the primary
name from the FIRST (Alias, DocumentedName) pair whose Alias is flagged
Primary="TRUE" (case-insensitively, as `is_primary_alias`) and whose
constructed full name is non-empty; every other non-empty documented name
— including further documented names of primary aliases — is appended, in
document order, to the aliases list as a row with its alias type and
quality. The first conjunct also certifies that an Alias with attribute
Primary="TRUE" is recognised as primary. -/
theorem claim_C7 (ie : Xml) (r : SdnRecord) (ats sv npt : RefMap)
    (hr : r.primary_name = none) :
    (∀ al : Xml, al.attr ("Primary") = some ("TRUE") → is_primary_alias al = true)
    ∧ (_parse_identity ie r ats sv npt).primary_name
        = ((alias_doc_pairs ie).find? (fun pr =>
            is_primary_alias pr.1 = true
              ∧ full_name_of (build_npg_map ie npt) sv pr.2 ≠ (""))).map
            (fun pr => mk_primary (build_npg_map ie npt) sv pr.2)
    ∧ (_parse_identity ie r ats sv npt).aliases
        = r.aliases ++ (identity_names_spec ats (build_npg_map ie npt) sv false
            (alias_doc_pairs ie)).2 := by
  have hA := (pairs_fold_spec ats (build_npg_map ie npt) sv (alias_doc_pairs ie) r).1 hr
  refine ⟨?_, ?_, ?_⟩
  · intro al hal
    unfold is_primary_alias
    have hd : al.attrD ("Primary") ("false") = ("TRUE") := by
      unfold Xml.attrD
      rw [hal]
      rfl
    rw [hd]
    decide
  · rw [parse_identity_eq_pairs, hA.1, spec_primary_find]
  · rw [parse_identity_eq_pairs, hA.2]

def c7al1 : Xml := Xml.mk ("Alias") [(("Primary"), ("TRUE"))] ("") [
  Xml.mk ("DocumentedName") [] ("") [
    Xml.mk ("DocumentedNamePart") [] ("") [
      Xml.mk ("NamePartValue") [] ("SMITH") []]],
  Xml.mk ("DocumentedName") [] ("") [
    Xml.mk ("DocumentedNamePart") [] ("") [
      Xml.mk ("NamePartValue") [] ("SMYTHE") []]]]

def c7al2 : Xml := Xml.mk ("Alias") [(("AliasTypeID"), ("1403"))] ("") [
  Xml.mk ("DocumentedName") [] ("") [
    Xml.mk ("DocumentedNamePart") [] ("") [
      Xml.mk ("NamePartValue") [] ("JONES") []]]]

def c7ie : Xml := Xml.mk ("Identity") [] ("") [c7al1, c7al2]

def c7rec : SdnRecord := init_record 7 none ("ts")

theorem claim_C7_witness :
    ((_parse_identity c7ie c7rec [] [] []).primary_name).map (fun p => p.full_name)
        = some ("SMITH")
    ∧ (_parse_identity c7ie c7rec [] [] []).aliases.map
        (fun a => (a.alias_type, a.full_name))
      = [(("a.k.a."), ("SMYTHE")), (("a.k.a."), ("JONES"))] := by
  have h := claim_C7 c7ie c7rec [] [] [] (by decide)
  refine ⟨?_, ?_⟩
  · rw [h.2.1]
    decide
  · rw [h.2.2]
    decide

/-! Append-only characterization of addresses and id_documents (claim C10). -/

/-- Addresses contributed by one _apply_location call: nothing for a
birth-place feature, one fresh row when any location field is non-empty,
nothing otherwise — independent of the record accumulated so far. -/
def apply_location_addr (loc : AddressRec) (ft_name : String) : List AddressRec :=
  if pyContains ft_name ("birth") ∧ pyContains ft_name ("place") then []
  else
    if loc.address ≠ ("") ∨ loc.city ≠ ("") ∨ loc.state_province ≠ ("") ∨
       loc.postal_code ≠ ("") ∨ loc.country ≠ ("") ∨ loc.region ≠ ("") then
      [AddressRec.mk loc.address loc.city loc.state_province loc.postal_code loc.country loc.region]
    else []

theorem apply_location_addresses (loc : AddressRec) (ft : String) (r : SdnRecord) :
    (_apply_location loc ft r).addresses = r.addresses ++ apply_location_addr loc ft := by
  unfold _apply_location apply_location_addr
  dsimp only
  by_cases h1 : pyContains ft ("birth") = true ∧ pyContains ft ("place") = true
  · rw [if_pos h1, if_pos h1, List.append_nil]
    split <;> rfl
  · rw [if_neg h1, if_neg h1]
    by_cases h2 : loc.address ≠ ("") ∨ loc.city ≠ ("") ∨ loc.state_province ≠ ("") ∨
        loc.postal_code ≠ ("") ∨ loc.country ≠ ("") ∨ loc.region ≠ ("")
    · rw [if_pos h2, if_pos h2]
    · rw [if_neg h2, if_neg h2, List.append_nil]

theorem apply_location_id_docs (loc : AddressRec) (ft : String) (r : SdnRecord) :
    (_apply_location loc ft r).id_documents = r.id_documents := by
  unfold _apply_location
  dsimp only
  split
  · split <;> rfl
  · split <;> rfl

/-- Addresses contributed by one VersionDetail child. -/
def vdc_addr (ft : String) (lm : List (String × AddressRec)) (vdc : Xml) : List AddressRec :=
  if vdc.tag = ("LocationID") then
    if pyStrip vdc.text ≠ ("") then
      match dlookup lm (pyStrip vdc.text) with
      | some loc => apply_location_addr loc ft
      | none => []
    else []
  else []

/-- Id documents contributed by one VersionDetail child: every resolvable
IDRegDocumentReference appends a fresh copy of the mapped document. -/
def vdc_docs (dm : List (String × IdDoc)) (vdc : Xml) : List IdDoc :=
  if vdc.tag = ("LocationID") then []
  else if vdc.tag = ("IDRegDocumentReference") then
    if vdc.attrD ("DocumentID") ("") ≠ ("") then
      match dlookup dm (vdc.attrD ("DocumentID") ("")) with
      | some doc => [doc]
      | none => []
    else []
  else []

theorem vdc_step_addresses (ft : String) (lm : List (String × AddressRec))
    (dm : List (String × IdDoc)) (r : SdnRecord) (vdc : Xml) :
    (version_detail_child_step ft lm dm r vdc).addresses = r.addresses ++ vdc_addr ft lm vdc := by
  unfold version_detail_child_step vdc_addr
  dsimp only
  by_cases h1 : vdc.tag = ("LocationID")
  · rw [if_pos h1, if_pos h1]
    by_cases h2 : pyStrip vdc.text ≠ ("")
    · rw [if_pos h2, if_pos h2]
      cases dlookup lm (pyStrip vdc.text) with
      | some loc => exact apply_location_addresses loc ft r
      | none => rw [List.append_nil]
    · rw [if_neg h2, if_neg h2, List.append_nil]
  · rw [if_neg h1, if_neg h1, List.append_nil]
    split
    · split
      · split <;> rfl
      · rfl
    · rfl

theorem vdc_step_id_docs (ft : String) (lm : List (String × AddressRec))
    (dm : List (String × IdDoc)) (r : SdnRecord) (vdc : Xml) :
    (version_detail_child_step ft lm dm r vdc).id_documents
      = r.id_documents ++ vdc_docs dm vdc := by
  unfold version_detail_child_step vdc_docs
  dsimp only
  by_cases h1 : vdc.tag = ("LocationID")
  · rw [if_pos h1, if_pos h1, List.append_nil]
    split
    · split
      · exact apply_location_id_docs _ _ _
      · rfl
    · rfl
  · rw [if_neg h1, if_neg h1]
    by_cases h2 : vdc.tag = ("IDRegDocumentReference")
    · rw [if_pos h2, if_pos h2]
      by_cases h3 : vdc.attrD ("DocumentID") ("") ≠ ("")
      · rw [if_pos h3, if_pos h3]
        cases dlookup dm (vdc.attrD ("DocumentID") ("")) with
        | some doc => rfl
        | none => rw [List.append_nil]
      · rw [if_neg h3, if_neg h3, List.append_nil]
    · rw [if_neg h2, if_neg h2, List.append_nil]

theorem foldl_append_proj {α β γ : Type} (f : α → β → α) (proj : α → List γ) (g : β → List γ)
    (h : ∀ a b, proj (f a b) = proj a ++ g b) :
    ∀ (l : List β) (a : α), proj (l.foldl f a) = proj a ++ l.flatMap g := by
  intro l
  induction l with
  | nil => intro a; simp
  | cons x xs ih =>
    intro a
    rw [List.foldl_cons, ih, h, List.flatMap_cons, List.append_assoc]

/-- Addresses contributed by one FeatureVersion child. -/
def fvc_addr (ft : String) (lm : List (String × AddressRec)) (fvc : Xml) : List AddressRec :=
  if fvc.tag = ("Comment") then []
  else if fvc.tag = ("DatePeriod") then []
  else if fvc.tag = ("VersionDetail") then fvc.children.flatMap (vdc_addr ft lm)
  else if fvc.tag = ("VersionLocation") then
    if fvc.attrD ("LocationID") ("") ≠ ("") then
      match dlookup lm (fvc.attrD ("LocationID") ("")) with
      | some loc => apply_location_addr loc ft
      | none => []
    else []
  else []

/-- Id documents contributed by one FeatureVersion child. -/
def fvc_docs (dm : List (String × IdDoc)) (fvc : Xml) : List IdDoc :=
  if fvc.tag = ("Comment") then []
  else if fvc.tag = ("DatePeriod") then []
  else if fvc.tag = ("VersionDetail") then fvc.children.flatMap (vdc_docs dm)
  else []

theorem fvc_addresses (ft : String) (cv : RefMap) (lm : List (String × AddressRec))
    (dm : List (String × IdDoc)) (st : SdnRecord × String) (fvc : Xml) :
    (feature_version_child ft cv lm dm st fvc).1.addresses
      = st.1.addresses ++ fvc_addr ft lm fvc := by
  unfold feature_version_child fvc_addr
  dsimp only
  by_cases h1 : fvc.tag = ("Comment")
  · rw [if_pos h1, if_pos h1, List.append_nil]
  · rw [if_neg h1, if_neg h1]
    by_cases h2 : fvc.tag = ("DatePeriod")
    · rw [if_pos h2, if_pos h2, List.append_nil]
      cases _parse_date_period fvc with
      | some d =>
        repeat' split
        all_goals rfl
      | none => rfl
    · rw [if_neg h2, if_neg h2]
      by_cases h3 : fvc.tag = ("VersionDetail")
      · rw [if_pos h3, if_pos h3]
        dsimp only
        rw [foldl_append_proj (version_detail_child_step ft lm dm) SdnRecord.addresses
          (vdc_addr ft lm) (fun a b => vdc_step_addresses ft lm dm a b)]
        have hr1 : ∀ r1 : SdnRecord,
            (if fvc.attrD ("CountryID") ("") ≠ ("") then
              (if pyContains ft ("national") = true ∧
                  (dlookup cv (fvc.attrD ("CountryID") (""))).getD ("") ≠ ("") then
                (if (dlookup cv (fvc.attrD ("CountryID") (""))).getD ("") ∉ r1.nationalities then
                  { r1 with nationalities := r1.nationalities
                    ++ [(dlookup cv (fvc.attrD ("CountryID") (""))).getD ("")] } else r1)
              else if pyContains ft ("citizen") = true ∧
                  (dlookup cv (fvc.attrD ("CountryID") (""))).getD ("") ≠ ("") then
                (if (dlookup cv (fvc.attrD ("CountryID") (""))).getD ("") ∉ r1.citizenships then
                  { r1 with citizenships := r1.citizenships
                    ++ [(dlookup cv (fvc.attrD ("CountryID") (""))).getD ("")] } else r1)
              else r1)
            else r1).addresses = r1.addresses := by
          intro r1
          repeat' split
          all_goals rfl
        rw [hr1]
      · rw [if_neg h3, if_neg h3]
        by_cases h4 : fvc.tag = ("VersionLocation")
        · rw [if_pos h4, if_pos h4]
          by_cases h5 : fvc.attrD ("LocationID") ("") ≠ ("")
          · rw [if_pos h5, if_pos h5]
            cases dlookup lm (fvc.attrD ("LocationID") ("")) with
            | some loc => exact apply_location_addresses loc ft st.1
            | none => rw [List.append_nil]
          · rw [if_neg h5, if_neg h5, List.append_nil]
        · rw [if_neg h4, if_neg h4, List.append_nil]

theorem fvc_id_docs (ft : String) (cv : RefMap) (lm : List (String × AddressRec))
    (dm : List (String × IdDoc)) (st : SdnRecord × String) (fvc : Xml) :
    (feature_version_child ft cv lm dm st fvc).1.id_documents
      = st.1.id_documents ++ fvc_docs dm fvc := by
  unfold feature_version_child fvc_docs
  dsimp only
  by_cases h1 : fvc.tag = ("Comment")
  · rw [if_pos h1, if_pos h1, List.append_nil]
  · rw [if_neg h1, if_neg h1]
    by_cases h2 : fvc.tag = ("DatePeriod")
    · rw [if_pos h2, if_pos h2, List.append_nil]
      cases _parse_date_period fvc with
      | some d =>
        repeat' split
        all_goals rfl
      | none => rfl
    · rw [if_neg h2, if_neg h2]
      by_cases h3 : fvc.tag = ("VersionDetail")
      · rw [if_pos h3, if_pos h3]
        dsimp only
        rw [foldl_append_proj (version_detail_child_step ft lm dm) SdnRecord.id_documents
          (vdc_docs dm) (fun a b => vdc_step_id_docs ft lm dm a b)]
        have hr1 : ∀ r1 : SdnRecord,
            (if fvc.attrD ("CountryID") ("") ≠ ("") then
              (if pyContains ft ("national") = true ∧
                  (dlookup cv (fvc.attrD ("CountryID") (""))).getD ("") ≠ ("") then
                (if (dlookup cv (fvc.attrD ("CountryID") (""))).getD ("") ∉ r1.nationalities then
                  { r1 with nationalities := r1.nationalities
                    ++ [(dlookup cv (fvc.attrD ("CountryID") (""))).getD ("")] } else r1)
              else if pyContains ft ("citizen") = true ∧
                  (dlookup cv (fvc.attrD ("CountryID") (""))).getD ("") ≠ ("") then
                (if (dlookup cv (fvc.attrD ("CountryID") (""))).getD ("") ∉ r1.citizenships then
                  { r1 with citizenships := r1.citizenships
                    ++ [(dlookup cv (fvc.attrD ("CountryID") (""))).getD ("")] } else r1)
              else r1)
            else r1).id_documents = r1.id_documents := by
          intro r1
          repeat' split
          all_goals rfl
        rw [hr1]
      · rw [if_neg h3, if_neg h3, List.append_nil]
        by_cases h4 : fvc.tag = ("VersionLocation")
        · rw [if_pos h4]
          by_cases h5 : fvc.attrD ("LocationID") ("") ≠ ("")
          · rw [if_pos h5]
            cases dlookup lm (fvc.attrD ("LocationID") ("")) with
            | some loc => exact apply_location_id_docs loc ft st.1
            | none => rfl
          · rw [if_neg h5]
        · rw [if_neg h4]

/-- Addresses contributed by one Feature (pipeline.py lines 337-374). -/
def feature_addr (ftm : RefMap) (lm : List (String × AddressRec)) (feature : Xml) :
    List AddressRec :=
  let ft := pyLower ((dlookup ftm (feature.attrD ("FeatureTypeID") (""))).getD (""))
  (iter_tag feature ("FeatureVersion")).flatMap (fun fv => fv.children.flatMap (fvc_addr ft lm))

/-- Id documents contributed by one Feature. -/
def feature_docs (ftm : RefMap) (dm : List (String × IdDoc)) (feature : Xml) : List IdDoc :=
  (iter_tag feature ("FeatureVersion")).flatMap (fun fv => fv.children.flatMap (fvc_docs dm))

theorem fv_step_addresses (ft : String) (cv : RefMap) (lm : List (String × AddressRec))
    (dm : List (String × IdDoc)) (st : FState) (fv : Xml) :
    (feature_version_step ft cv lm dm st fv).record.addresses
      = st.record.addresses ++ fv.children.flatMap (fvc_addr ft lm) := by
  have hrc : (fv.children.foldl (feature_version_child ft cv lm dm) (st.record, (""))).1.addresses
      = st.record.addresses ++ fv.children.flatMap (fvc_addr ft lm) :=
    foldl_append_proj (feature_version_child ft cv lm dm) (fun p => p.1.addresses)
      (fvc_addr ft lm) (fun a b => fvc_addresses ft cv lm dm a b) fv.children (st.record, (""))
  unfold feature_version_step
  dsimp only
  repeat' split
  all_goals exact hrc

theorem fv_step_id_docs (ft : String) (cv : RefMap) (lm : List (String × AddressRec))
    (dm : List (String × IdDoc)) (st : FState) (fv : Xml) :
    (feature_version_step ft cv lm dm st fv).record.id_documents
      = st.record.id_documents ++ fv.children.flatMap (fvc_docs dm) := by
  have hrc : (fv.children.foldl (feature_version_child ft cv lm dm) (st.record, (""))).1.id_documents
      = st.record.id_documents ++ fv.children.flatMap (fvc_docs dm) :=
    foldl_append_proj (feature_version_child ft cv lm dm) (fun p => p.1.id_documents)
      (fvc_docs dm) (fun a b => fvc_id_docs ft cv lm dm a b) fv.children (st.record, (""))
  unfold feature_version_step
  dsimp only
  repeat' split
  all_goals exact hrc

theorem feature_step_addresses (ftm cv : RefMap) (lm : List (String × AddressRec))
    (dm : List (String × IdDoc)) (st : FState) (f : Xml) :
    (feature_step ftm cv lm dm st f).record.addresses
      = st.record.addresses ++ feature_addr ftm lm f := by
  unfold feature_step feature_addr
  exact foldl_append_proj _ (fun s => s.record.addresses) _
    (fun a b => fv_step_addresses _ cv lm dm a b) _ st

theorem feature_step_id_docs (ftm cv : RefMap) (lm : List (String × AddressRec))
    (dm : List (String × IdDoc)) (st : FState) (f : Xml) :
    (feature_step ftm cv lm dm st f).record.id_documents
      = st.record.id_documents ++ feature_docs ftm dm f := by
  unfold feature_step feature_docs
  exact foldl_append_proj _ (fun s => s.record.id_documents) _
    (fun a b => fv_step_id_docs _ cv lm dm a b) _ st

theorem parse_features_addresses (p : Xml) (r : SdnRecord) (ftm cv : RefMap)
    (lm : List (String × AddressRec)) (dm : List (String × IdDoc)) :
    (_parse_features p r ftm cv lm dm).addresses
      = r.addresses ++ (iter_tag p ("Feature")).flatMap (feature_addr ftm lm) := by
  have hst : ((iter_tag p ("Feature")).foldl (feature_step ftm cv lm dm)
      (FState.mk r [] [] [])).record.addresses
      = r.addresses ++ (iter_tag p ("Feature")).flatMap (feature_addr ftm lm) :=
    foldl_append_proj _ (fun s => s.record.addresses) _
      (fun a b => feature_step_addresses ftm cv lm dm a b) _ (FState.mk r [] [] [])
  unfold _parse_features
  dsimp only
  repeat' split
  all_goals exact hst

theorem parse_features_id_docs (p : Xml) (r : SdnRecord) (ftm cv : RefMap)
    (lm : List (String × AddressRec)) (dm : List (String × IdDoc)) :
    (_parse_features p r ftm cv lm dm).id_documents
      = r.id_documents ++ (iter_tag p ("Feature")).flatMap (feature_docs ftm dm) := by
  have hst : ((iter_tag p ("Feature")).foldl (feature_step ftm cv lm dm)
      (FState.mk r [] [] [])).record.id_documents
      = r.id_documents ++ (iter_tag p ("Feature")).flatMap (feature_docs ftm dm) :=
    foldl_append_proj _ (fun s => s.record.id_documents) _
      (fun a b => feature_step_id_docs ftm cv lm dm a b) _ (FState.mk r [] [] [])
  unfold _parse_features
  dsimp only
  repeat' split
  all_goals exact hst

def c10emptyLoc : AddressRec := AddressRec.mk ("") ("") ("") ("") ("") ("")

def c10feat1 : Xml := Xml.mk ("Feature") [(("FeatureTypeID"), ("f1"))] ("") [
  Xml.mk ("FeatureVersion") [] ("") [
    Xml.mk ("VersionLocation") [(("LocationID"), ("L9"))] ("") []]]

def c10prof1 : Xml := Xml.mk ("Profile") [] ("") [c10feat1]

def c10rec : SdnRecord := init_record 9 none ("ts")

/-- C10 counterexample: a feature reference to a Location ID that IS in
the locations map does not always append a fresh Address entry — when
every field of the mapped location is empty, _apply_location appends
nothing, so the record keeps an empty addresses list. -/
theorem claim_C10_counterexample :
    (_parse_features c10prof1 c10rec [(("f1"), ("Address"))] []
      [(("L9"), c10emptyLoc)] []).addresses = [] := by
  decide

def c10loc2 : AddressRec := AddressRec.mk ("12 Main St") ("Beirut") ("") ("") ("Lebanon") ("")

def c10feat2 : Xml := Xml.mk ("Feature") [(("FeatureTypeID"), ("f1"))] ("") [
  Xml.mk ("FeatureVersion") [] ("") [
    Xml.mk ("VersionLocation") [(("LocationID"), ("L2"))] ("") []],
  Xml.mk ("FeatureVersion") [] ("") [
    Xml.mk ("VersionLocation") [(("LocationID"), ("L2"))] ("") []]]

def c10prof2 : Xml := Xml.mk ("Profile") [] ("") [c10feat2]

def c10doc : IdDoc := IdDoc.mk ("Passport") ("A1234") ("Lebanon") ("") ("") false

def c10feat3 : Xml := Xml.mk ("Feature") [(("FeatureTypeID"), ("f1"))] ("") [
  Xml.mk ("FeatureVersion") [] ("") [
    Xml.mk ("VersionDetail") [] ("") [
      Xml.mk ("IDRegDocumentReference") [(("DocumentID"), ("D1"))] ("") []]],
  Xml.mk ("FeatureVersion") [] ("") [
    Xml.mk ("VersionDetail") [] ("") [
      Xml.mk ("IDRegDocumentReference") [(("DocumentID"), ("D1"))] ("") []]]]

def c10prof3 : Xml := Xml.mk ("Profile") [] ("") [c10feat3]

/-- C10 (amended): addresses and id_documents are append-only with no
deduplication — the feature fold extends them by per-reference
contributions (`feature_addr` / `feature_docs`) that never consult the
record accumulated so far, so repeats are kept; concretely, two feature
versions referencing the same location yield two identical address rows,
and two references to the same IDRegDocument yield two identical id-doc
rows. But a reference does not ALWAYS append a fresh entry: an
unresolvable ID, an all-empty location, or a birth-place feature (routed
to places_of_birth, a deduplicated string list) contribute nothing. -/
theorem claim_C10 :
    (∀ (p : Xml) (r : SdnRecord) (ftm cv : RefMap) (lm : List (String × AddressRec))
        (dm : List (String × IdDoc)),
      (_parse_features p r ftm cv lm dm).addresses
          = r.addresses ++ (iter_tag p ("Feature")).flatMap (feature_addr ftm lm)
        ∧ (_parse_features p r ftm cv lm dm).id_documents
          = r.id_documents ++ (iter_tag p ("Feature")).flatMap (feature_docs ftm dm))
    ∧ (_parse_features c10prof2 c10rec [(("f1"), ("Address"))] []
        [(("L2"), c10loc2)] []).addresses = [c10loc2, c10loc2]
    ∧ (_parse_features c10prof3 c10rec [(("f1"), ("Address"))] [] []
        [(("D1"), c10doc)]).id_documents = [c10doc, c10doc] := by
  refine ⟨?_, ?_, ?_⟩
  · intro p r ftm cv lm dm
    exact ⟨parse_features_addresses p r ftm cv lm dm, parse_features_id_docs p r ftm cv lm dm⟩
  · decide
  · decide

/-! Characterization of the vessel / aircraft accumulators (claim C8). -/

/-- The comment captured by one FeatureVersion: the trimmed text of its
last Comment child, empty when there is none (pipeline.py lines 342-345). -/
def feature_comment (fv : Xml) : String :=
  fv.children.foldl (fun c fvc => if fvc.tag = ("Comment") then pyStrip fvc.text else c) ("")

theorem foldl_snd {α β γ : Type} (f : (α × γ) → β → (α × γ)) (g : γ → β → γ)
    (h : ∀ a b, (f a b).2 = g a.2 b) :
    ∀ (l : List β) (a : α × γ), (l.foldl f a).2 = l.foldl g a.2 := by
  intro l
  induction l with
  | nil => intro a; rfl
  | cons x xs ih =>
    intro a
    rw [List.foldl_cons, List.foldl_cons, ih, h]

theorem fvc_comment (ft : String) (cv : RefMap) (lm : List (String × AddressRec))
    (dm : List (String × IdDoc)) (st : SdnRecord × String) (fvc : Xml) :
    (feature_version_child ft cv lm dm st fvc).2
      = if fvc.tag = ("Comment") then pyStrip fvc.text else st.2 := by
  unfold feature_version_child
  dsimp only
  by_cases h1 : fvc.tag = ("Comment")
  · rw [if_pos h1, if_pos h1]
  · rw [if_neg h1, if_neg h1]
    repeat' split
    all_goals rfl

theorem fv_comment (ft : String) (cv : RefMap) (lm : List (String × AddressRec))
    (dm : List (String × IdDoc)) (r : SdnRecord) (fv : Xml) :
    (fv.children.foldl (feature_version_child ft cv lm dm) (r, (""))).2
      = feature_comment fv := by
  unfold feature_comment
  exact foldl_snd _ _ (fun a b => fvc_comment ft cv lm dm a b) fv.children (r, (""))

theorem fv_step_vessel (ft : String) (cv : RefMap) (lm : List (String × AddressRec))
    (dm : List (String × IdDoc)) (st : FState) (fv : Xml) :
    (feature_version_step ft cv lm dm st fv).vessel
      = if feature_comment fv ≠ ("") then
          (match first_feature_field VESSEL_FEATURES ft with
           | some field => dinsert st.vessel field (feature_comment fv)
           | none => st.vessel)
        else st.vessel := by
  unfold feature_version_step
  dsimp only
  rw [fv_comment]
  by_cases hc : feature_comment fv ≠ ("")
  · conv_rhs => rw [if_pos hc]
    rw [if_pos hc]
    cases hfa : first_feature_field AIRCRAFT_FEATURES ft with
    | some f =>
      dsimp only
      rw [if_pos hc]
      cases hfv : first_feature_field VESSEL_FEATURES ft with
      | some g =>
        dsimp only
        repeat' split
        all_goals rfl
      | none =>
        dsimp only
        repeat' split
        all_goals rfl
    | none =>
      dsimp only
      rw [if_pos hc]
      cases hfv : first_feature_field VESSEL_FEATURES ft with
      | some g =>
        dsimp only
        repeat' split
        all_goals rfl
      | none =>
        dsimp only
        repeat' split
        all_goals rfl
  · conv_rhs => rw [if_neg hc]
    rw [if_neg hc, if_neg hc]
    repeat' split
    all_goals rfl

theorem fv_step_aircraft (ft : String) (cv : RefMap) (lm : List (String × AddressRec))
    (dm : List (String × IdDoc)) (st : FState) (fv : Xml) :
    (feature_version_step ft cv lm dm st fv).aircraft
      = if feature_comment fv ≠ ("") then
          (match first_feature_field AIRCRAFT_FEATURES ft with
           | some field => dinsert st.aircraft field (feature_comment fv)
           | none => st.aircraft)
        else st.aircraft := by
  unfold feature_version_step
  dsimp only
  rw [fv_comment]
  by_cases hc : feature_comment fv ≠ ("")
  · conv_rhs => rw [if_pos hc]
    rw [if_pos hc]
    cases hfa : first_feature_field AIRCRAFT_FEATURES ft with
    | some f =>
      dsimp only
      rw [if_pos hc]
      cases hfv : first_feature_field VESSEL_FEATURES ft with
      | some g =>
        dsimp only
        repeat' split
        all_goals rfl
      | none =>
        dsimp only
        repeat' split
        all_goals rfl
    | none =>
      dsimp only
      rw [if_pos hc]
      cases hfv : first_feature_field VESSEL_FEATURES ft with
      | some g =>
        dsimp only
        repeat' split
        all_goals rfl
      | none =>
        dsimp only
        repeat' split
        all_goals rfl
  · conv_rhs => rw [if_neg hc]
    rw [if_neg hc, if_neg hc]
    repeat' split
    all_goals rfl

/-- Every entry of a vessel/aircraft accumulator has a non-empty value
and a key drawn from the feature table's field names. -/
def acc_ok (keys : List String) (acc : List (String × String)) : Prop :=
  ∀ e ∈ acc, e.2 ≠ ("") ∧ e.1 ∈ keys

theorem acc_ok_dinsert {keys : List String} {m : List (String × String)} {k v : String}
    (hm : acc_ok keys m) (hv : v ≠ ("")) (hk : k ∈ keys) : acc_ok keys (dinsert m k v) := by
  intro e he
  unfold dinsert at he
  by_cases hd : dmem m k = true
  · rw [if_pos hd] at he
    rcases List.mem_map.mp he with ⟨p, hp, hpe⟩
    by_cases hpk : p.1 = k
    · rw [if_pos hpk] at hpe
      rw [← hpe]
      exact ⟨hv, hk⟩
    · rw [if_neg hpk] at hpe
      rw [← hpe]
      exact hm p hp
  · rw [if_neg hd] at he
    rcases List.mem_append.mp he with h | h
    · exact hm e h
    · have he2 : e = (k, v) := List.mem_singleton.mp h
      rw [he2]
      exact ⟨hv, hk⟩

theorem fff_mem (table : List (String × String)) (ft field : String)
    (h : first_feature_field table ft = some field) :
    field ∈ table.map (fun p => p.2) := by
  unfold first_feature_field at h
  cases hf : table.find? (fun p => pyContains ft p.1) with
  | none =>
    rw [hf] at h
    exact absurd h (by simp)
  | some p =>
    rw [hf, Option.map_some'] at h
    injection h with h2
    rw [← h2]
    exact List.mem_map_of_mem _ (List.mem_of_find?_eq_some hf)

theorem foldl_inv {α β : Type} (P : α → Prop) (f : α → β → α)
    (h : ∀ a b, P a → P (f a b)) : ∀ (l : List β) (a : α), P a → P (l.foldl f a) := by
  intro l
  induction l with
  | nil => intro a ha; exact ha
  | cons x xs ih => intro a ha; rw [List.foldl_cons]; exact ih _ (h a x ha)

theorem acc_ok_fv_step_vessel (ft : String) (cv : RefMap) (lm : List (String × AddressRec))
    (dm : List (String × IdDoc)) (st : FState) (fv : Xml)
    (h : acc_ok (VESSEL_FEATURES.map (fun p => p.2)) st.vessel) :
    acc_ok (VESSEL_FEATURES.map (fun p => p.2)) (feature_version_step ft cv lm dm st fv).vessel := by
  rw [fv_step_vessel]
  by_cases hc : feature_comment fv ≠ ("")
  · rw [if_pos hc]
    cases hf : first_feature_field VESSEL_FEATURES ft with
    | some field => exact acc_ok_dinsert h hc (fff_mem _ _ _ hf)
    | none => exact h
  · rw [if_neg hc]
    exact h

theorem acc_ok_fv_step_aircraft (ft : String) (cv : RefMap) (lm : List (String × AddressRec))
    (dm : List (String × IdDoc)) (st : FState) (fv : Xml)
    (h : acc_ok (AIRCRAFT_FEATURES.map (fun p => p.2)) st.aircraft) :
    acc_ok (AIRCRAFT_FEATURES.map (fun p => p.2))
      (feature_version_step ft cv lm dm st fv).aircraft := by
  rw [fv_step_aircraft]
  by_cases hc : feature_comment fv ≠ ("")
  · rw [if_pos hc]
    cases hf : first_feature_field AIRCRAFT_FEATURES ft with
    | some field => exact acc_ok_dinsert h hc (fff_mem _ _ _ hf)
    | none => exact h
  · rw [if_neg hc]
    exact h

theorem acc_ok_feature_step_vessel (ftm cv : RefMap) (lm : List (String × AddressRec))
    (dm : List (String × IdDoc)) (st : FState) (f : Xml)
    (h : acc_ok (VESSEL_FEATURES.map (fun p => p.2)) st.vessel) :
    acc_ok (VESSEL_FEATURES.map (fun p => p.2)) (feature_step ftm cv lm dm st f).vessel := by
  unfold feature_step
  exact foldl_inv (fun s => acc_ok (VESSEL_FEATURES.map (fun p => p.2)) s.vessel) _
    (fun a b => acc_ok_fv_step_vessel _ cv lm dm a b) _ st h

theorem acc_ok_feature_step_aircraft (ftm cv : RefMap) (lm : List (String × AddressRec))
    (dm : List (String × IdDoc)) (st : FState) (f : Xml)
    (h : acc_ok (AIRCRAFT_FEATURES.map (fun p => p.2)) st.aircraft) :
    acc_ok (AIRCRAFT_FEATURES.map (fun p => p.2)) (feature_step ftm cv lm dm st f).aircraft := by
  unfold feature_step
  exact foldl_inv (fun s => acc_ok (AIRCRAFT_FEATURES.map (fun p => p.2)) s.aircraft) _
    (fun a b => acc_ok_fv_step_aircraft _ cv lm dm a b) _ st h

/-- The lowercased resolved feature-type name (pipeline.py line 338). -/
def ft_name_of (ftm : RefMap) (f : Xml) : String :=
  pyLower ((dlookup ftm (f.attrD ("FeatureTypeID") (""))).getD (""))

theorem fv_fold_vessel_ne (ft : String) (cv : RefMap) (lm : List (String × AddressRec))
    (dm : List (String × IdDoc)) :
    ∀ (vs : List Xml) (st : FState),
    (vs.foldl (feature_version_step ft cv lm dm) st).vessel ≠ []
    → st.vessel ≠ [] ∨ ∃ fv ∈ vs, feature_comment fv ≠ ("")
        ∧ (first_feature_field VESSEL_FEATURES ft).isSome = true := by
  intro vs
  induction vs with
  | nil => intro st h; exact Or.inl h
  | cons v rest ih =>
    intro st h
    rw [List.foldl_cons] at h
    rcases ih _ h with h1 | ⟨fv, hfv, hcond⟩
    · rw [fv_step_vessel] at h1
      by_cases hc : feature_comment v ≠ ("")
      · rw [if_pos hc] at h1
        cases hf : first_feature_field VESSEL_FEATURES ft with
        | some f =>
          exact Or.inr ⟨v, List.mem_cons_self v rest, hc, rfl⟩
        | none =>
          rw [hf] at h1
          exact Or.inl h1
      · rw [if_neg hc] at h1
        exact Or.inl h1
    · exact Or.inr ⟨fv, List.mem_cons_of_mem _ hfv, hcond⟩

theorem fv_fold_aircraft_ne (ft : String) (cv : RefMap) (lm : List (String × AddressRec))
    (dm : List (String × IdDoc)) :
    ∀ (vs : List Xml) (st : FState),
    (vs.foldl (feature_version_step ft cv lm dm) st).aircraft ≠ []
    → st.aircraft ≠ [] ∨ ∃ fv ∈ vs, feature_comment fv ≠ ("")
        ∧ (first_feature_field AIRCRAFT_FEATURES ft).isSome = true := by
  intro vs
  induction vs with
  | nil => intro st h; exact Or.inl h
  | cons v rest ih =>
    intro st h
    rw [List.foldl_cons] at h
    rcases ih _ h with h1 | ⟨fv, hfv, hcond⟩
    · rw [fv_step_aircraft] at h1
      by_cases hc : feature_comment v ≠ ("")
      · rw [if_pos hc] at h1
        cases hf : first_feature_field AIRCRAFT_FEATURES ft with
        | some f =>
          exact Or.inr ⟨v, List.mem_cons_self v rest, hc, rfl⟩
        | none =>
          rw [hf] at h1
          exact Or.inl h1
      · rw [if_neg hc] at h1
        exact Or.inl h1
    · exact Or.inr ⟨fv, List.mem_cons_of_mem _ hfv, hcond⟩

theorem features_fold_vessel_ne (ftm cv : RefMap) (lm : List (String × AddressRec))
    (dm : List (String × IdDoc)) :
    ∀ (fs : List Xml) (st : FState),
    (fs.foldl (feature_step ftm cv lm dm) st).vessel ≠ []
    → st.vessel ≠ [] ∨ ∃ f ∈ fs, ∃ fv ∈ iter_tag f ("FeatureVersion"),
        feature_comment fv ≠ ("")
          ∧ (first_feature_field VESSEL_FEATURES (ft_name_of ftm f)).isSome = true := by
  intro fs
  induction fs with
  | nil => intro st h; exact Or.inl h
  | cons f rest ih =>
    intro st h
    rw [List.foldl_cons] at h
    rcases ih _ h with h1 | ⟨g, hg, hrest⟩
    · rcases fv_fold_vessel_ne (ft_name_of ftm f) cv lm dm (iter_tag f ("FeatureVersion")) st h1
        with h2 | ⟨fv, hfv, hcond⟩
      · exact Or.inl h2
      · exact Or.inr ⟨f, List.mem_cons_self f rest, fv, hfv, hcond⟩
    · exact Or.inr ⟨g, List.mem_cons_of_mem _ hg, hrest⟩

theorem features_fold_aircraft_ne (ftm cv : RefMap) (lm : List (String × AddressRec))
    (dm : List (String × IdDoc)) :
    ∀ (fs : List Xml) (st : FState),
    (fs.foldl (feature_step ftm cv lm dm) st).aircraft ≠ []
    → st.aircraft ≠ [] ∨ ∃ f ∈ fs, ∃ fv ∈ iter_tag f ("FeatureVersion"),
        feature_comment fv ≠ ("")
          ∧ (first_feature_field AIRCRAFT_FEATURES (ft_name_of ftm f)).isSome = true := by
  intro fs
  induction fs with
  | nil => intro st h; exact Or.inl h
  | cons f rest ih =>
    intro st h
    rw [List.foldl_cons] at h
    rcases ih _ h with h1 | ⟨g, hg, hrest⟩
    · rcases fv_fold_aircraft_ne (ft_name_of ftm f) cv lm dm (iter_tag f ("FeatureVersion")) st h1
        with h2 | ⟨fv, hfv, hcond⟩
      · exact Or.inl h2
      · exact Or.inr ⟨f, List.mem_cons_self f rest, fv, hfv, hcond⟩
    · exact Or.inr ⟨g, List.mem_cons_of_mem _ hg, hrest⟩

theorem vessel_aircraft_of_fold_invariant {r r2 : SdnRecord}
    (h : fold_invariant_of r = fold_invariant_of r2) :
    r.vessel_info = r2.vessel_info ∧ r.aircraft_info = r2.aircraft_info := by
  unfold fold_invariant_of at h
  injection h with h1 h
  injection h with h2 h
  injection h with h3 h
  injection h with h4 h
  injection h with h5 h6
  exact ⟨h5, h6⟩

theorem mk_vessel_info_nonempty (acc : List (String × String))
    (hok : acc_ok (VESSEL_FEATURES.map (fun p => p.2)) acc) (hne : acc ≠ []) :
    ∃ s, s ≠ ("") ∧ ((mk_vessel_info acc).vessel_type = some s
      ∨ (mk_vessel_info acc).vessel_flag = some s
      ∨ (mk_vessel_info acc).vessel_owner = some s
      ∨ (mk_vessel_info acc).vessel_tonnage = some s
      ∨ (mk_vessel_info acc).vessel_grt = some s
      ∨ (mk_vessel_info acc).vessel_call_sign = some s
      ∨ (mk_vessel_info acc).vessel_mmsi = some s
      ∨ (mk_vessel_info acc).vessel_imo = some s) := by
  cases acc with
  | nil => exact absurd rfl hne
  | cons e rest =>
    have he := hok e (List.mem_cons_self e rest)
    have hl : dlookup (e :: rest) e.1 = some e.2 := by
      unfold dlookup
      rw [List.find?_cons_of_pos _ (by simp)]
      rfl
    refine ⟨e.2, he.1, ?_⟩
    have hk := he.2
    simp only [VESSEL_FEATURES, List.map_cons, List.map_nil, List.mem_cons,
      List.not_mem_nil, or_false] at hk
    unfold mk_vessel_info
    dsimp only
    rcases hk with h | h | h | h | h | h | h | h
    · exact Or.inr (Or.inr (Or.inr (Or.inr (Or.inr (Or.inl (by rw [← h]; exact hl))))))
    · exact Or.inl (by rw [← h]; exact hl)
    · exact Or.inr (Or.inr (Or.inr (Or.inl (by rw [← h]; exact hl))))
    · exact Or.inr (Or.inr (Or.inr (Or.inr (Or.inl (by rw [← h]; exact hl)))))
    · exact Or.inr (Or.inl (by rw [← h]; exact hl))
    · exact Or.inr (Or.inr (Or.inl (by rw [← h]; exact hl)))
    · exact Or.inr (Or.inr (Or.inr (Or.inr (Or.inr (Or.inr (Or.inl (by rw [← h]; exact hl)))))))
    · exact Or.inr (Or.inr (Or.inr (Or.inr (Or.inr (Or.inr (Or.inr (by rw [← h]; exact hl)))))))

theorem mk_aircraft_info_nonempty (acc : List (String × String))
    (hok : acc_ok (AIRCRAFT_FEATURES.map (fun p => p.2)) acc) (hne : acc ≠ []) :
    ∃ s, s ≠ ("") ∧ ((mk_aircraft_info acc).aircraft_type = some s
      ∨ (mk_aircraft_info acc).aircraft_manufacturer = some s
      ∨ (mk_aircraft_info acc).aircraft_serial = some s
      ∨ (mk_aircraft_info acc).aircraft_tail_number = some s
      ∨ (mk_aircraft_info acc).aircraft_operator = some s) := by
  cases acc with
  | nil => exact absurd rfl hne
  | cons e rest =>
    have he := hok e (List.mem_cons_self e rest)
    have hl : dlookup (e :: rest) e.1 = some e.2 := by
      unfold dlookup
      rw [List.find?_cons_of_pos _ (by simp)]
      rfl
    refine ⟨e.2, he.1, ?_⟩
    have hk := he.2
    simp only [AIRCRAFT_FEATURES, List.map_cons, List.map_nil, List.mem_cons,
      List.not_mem_nil, or_false] at hk
    unfold mk_aircraft_info
    dsimp only
    rcases hk with h | h | h | h | h | h | h
    · exact Or.inr (Or.inr (Or.inl (by rw [← h]; exact hl)))
    · exact Or.inr (Or.inr (Or.inl (by rw [← h]; exact hl)))
    · exact Or.inl (by rw [← h]; exact hl)
    · exact Or.inr (Or.inr (Or.inr (Or.inr (by rw [← h]; exact hl))))
    · exact Or.inr (Or.inr (Or.inr (Or.inl (by rw [← h]; exact hl))))
    · exact Or.inl (by rw [← h]; exact hl)
    · exact Or.inr (Or.inl (by rw [← h]; exact hl))

theorem parse_features_vessel_info (p : Xml) (r : SdnRecord) (ftm cv : RefMap)
    (lm : List (String × AddressRec)) (dm : List (String × IdDoc)) :
    (_parse_features p r ftm cv lm dm).vessel_info
      = (if ((iter_tag p ("Feature")).foldl (feature_step ftm cv lm dm)
            (FState.mk r [] [] [])).vessel ≠ [] then
          some (mk_vessel_info ((iter_tag p ("Feature")).foldl (feature_step ftm cv lm dm)
            (FState.mk r [] [] [])).vessel)
        else r.vessel_info) := by
  have hpres := foldl_preserve (fun s => fold_invariant_of s.record) (feature_step ftm cv lm dm)
    (fun a b => fold_invariant_feature_step ftm cv lm dm a b)
    (iter_tag p ("Feature")) (FState.mk r [] [] [])
  have hvr := (vessel_aircraft_of_fold_invariant hpres).1
  unfold _parse_features
  dsimp only
  repeat' split
  all_goals simp_all

theorem parse_features_aircraft_info (p : Xml) (r : SdnRecord) (ftm cv : RefMap)
    (lm : List (String × AddressRec)) (dm : List (String × IdDoc)) :
    (_parse_features p r ftm cv lm dm).aircraft_info
      = (if ((iter_tag p ("Feature")).foldl (feature_step ftm cv lm dm)
            (FState.mk r [] [] [])).aircraft ≠ [] then
          some (mk_aircraft_info ((iter_tag p ("Feature")).foldl (feature_step ftm cv lm dm)
            (FState.mk r [] [] [])).aircraft)
        else r.aircraft_info) := by
  have hpres := foldl_preserve (fun s => fold_invariant_of s.record) (feature_step ftm cv lm dm)
    (fun a b => fold_invariant_feature_step ftm cv lm dm a b)
    (iter_tag p ("Feature")) (FState.mk r [] [] [])
  have har := (vessel_aircraft_of_fold_invariant hpres).2
  unfold _parse_features
  dsimp only
  repeat' split
  all_goals simp_all

def c8rec : SdnRecord := init_record 8 none ("ts")

def c8ftm : RefMap := [(("f9"), ("Vessel Call Sign"))]

def c8prof3 : Xml := Xml.mk ("Profile") [] ("") [
  Xml.mk ("Feature") [(("FeatureTypeID"), ("f9"))] ("") [
    Xml.mk ("FeatureVersion") [] ("") [Xml.mk ("Comment") [] ("  ") []]]]

def c8prof4 : Xml := Xml.mk ("Profile") [] ("") [
  Xml.mk ("Feature") [(("FeatureTypeID"), ("f9"))] ("") [
    Xml.mk ("FeatureVersion") [] ("") [Xml.mk ("Comment") [] ("ABC123") []]]]

def c8vinfo : VesselInfo := mk_vessel_info [(("vessel_call_sign"), ("ABC123"))]

/-- C8: starting from a record with null vessel_info and aircraft_info,
whenever the feature parser emits a non-null vessel_info (respectively
aircraft_info), (i) at least one of its fields is non-null and non-empty,
and (ii) at least one feature with a matching vessel (respectively
aircraft) feature-type name and a non-empty comment was present;
moreover a vessel feature whose only contribution is an empty comment
leaves vessel_info null (concrete last conjunct). -/
theorem claim_C8 (p : Xml) (r : SdnRecord) (ftm cv : RefMap)
    (lm : List (String × AddressRec)) (dm : List (String × IdDoc))
    (hv : r.vessel_info = none) (ha : r.aircraft_info = none) :
    (∀ v, (_parse_features p r ftm cv lm dm).vessel_info = some v →
      (∃ s, s ≠ ("") ∧ (v.vessel_type = some s ∨ v.vessel_flag = some s
        ∨ v.vessel_owner = some s ∨ v.vessel_tonnage = some s ∨ v.vessel_grt = some s
        ∨ v.vessel_call_sign = some s ∨ v.vessel_mmsi = some s ∨ v.vessel_imo = some s))
      ∧ ∃ f ∈ iter_tag p ("Feature"), ∃ fv ∈ iter_tag f ("FeatureVersion"),
          feature_comment fv ≠ ("")
            ∧ (first_feature_field VESSEL_FEATURES (ft_name_of ftm f)).isSome = true)
    ∧ (∀ a, (_parse_features p r ftm cv lm dm).aircraft_info = some a →
      (∃ s, s ≠ ("") ∧ (a.aircraft_type = some s ∨ a.aircraft_manufacturer = some s
        ∨ a.aircraft_serial = some s ∨ a.aircraft_tail_number = some s
        ∨ a.aircraft_operator = some s))
      ∧ ∃ f ∈ iter_tag p ("Feature"), ∃ fv ∈ iter_tag f ("FeatureVersion"),
          feature_comment fv ≠ ("")
            ∧ (first_feature_field AIRCRAFT_FEATURES (ft_name_of ftm f)).isSome = true)
    ∧ (_parse_features c8prof3 c8rec c8ftm [] [] []).vessel_info = none := by
  refine ⟨?_, ?_, by decide⟩
  · intro v hres
    rw [parse_features_vessel_info] at hres
    split at hres
    · rename_i hsv
      have hok : acc_ok (VESSEL_FEATURES.map (fun p => p.2))
          ((iter_tag p ("Feature")).foldl (feature_step ftm cv lm dm)
            (FState.mk r [] [] [])).vessel :=
        foldl_inv (fun s => acc_ok (VESSEL_FEATURES.map (fun q => q.2)) s.vessel) _
          (fun a b => acc_ok_feature_step_vessel ftm cv lm dm a b) _ (FState.mk r [] [] [])
          (fun e he => absurd he (by simp))
      injection hres with hres2
      refine ⟨?_, ?_⟩
      · rw [← hres2]
        exact mk_vessel_info_nonempty _ hok hsv
      · rcases features_fold_vessel_ne ftm cv lm dm (iter_tag p ("Feature"))
          (FState.mk r [] [] []) hsv with h2 | hex
        · exact absurd rfl h2
        · exact hex
    · rw [hv] at hres
      exact absurd hres (by simp)
  · intro a hres
    rw [parse_features_aircraft_info] at hres
    split at hres
    · rename_i hsa
      have hok : acc_ok (AIRCRAFT_FEATURES.map (fun p => p.2))
          ((iter_tag p ("Feature")).foldl (feature_step ftm cv lm dm)
            (FState.mk r [] [] [])).aircraft :=
        foldl_inv (fun s => acc_ok (AIRCRAFT_FEATURES.map (fun q => q.2)) s.aircraft) _
          (fun a2 b => acc_ok_feature_step_aircraft ftm cv lm dm a2 b) _ (FState.mk r [] [] [])
          (fun e he => absurd he (by simp))
      injection hres with hres2
      refine ⟨?_, ?_⟩
      · rw [← hres2]
        exact mk_aircraft_info_nonempty _ hok hsa
      · rcases features_fold_aircraft_ne ftm cv lm dm (iter_tag p ("Feature"))
          (FState.mk r [] [] []) hsa with h2 | hex
        · exact absurd rfl h2
        · exact hex
    · rw [ha] at hres
      exact absurd hres (by simp)

theorem claim_C8_witness :
    (∃ s, s ≠ ("") ∧ (c8vinfo.vessel_type = some s ∨ c8vinfo.vessel_flag = some s
      ∨ c8vinfo.vessel_owner = some s ∨ c8vinfo.vessel_tonnage = some s
      ∨ c8vinfo.vessel_grt = some s ∨ c8vinfo.vessel_call_sign = some s
      ∨ c8vinfo.vessel_mmsi = some s ∨ c8vinfo.vessel_imo = some s))
    ∧ ∃ f ∈ iter_tag c8prof4 ("Feature"), ∃ fv ∈ iter_tag f ("FeatureVersion"),
        feature_comment fv ≠ ("")
          ∧ (first_feature_field VESSEL_FEATURES (ft_name_of c8ftm f)).isSome = true :=
  (claim_C8 c8prof4 c8rec c8ftm [] [] [] rfl rfl).1 c8vinfo (by decide)

/-! Entry ids of the emitted records (claim C5). -/

/-- The parsed FixedRef of one DistinctParties child when it produces a
row: DistinctParty tag, non-empty trimmed FixedRef, parsable as int. -/
def keep_party_id (dp : Xml) : Option Int :=
  if dp.tag = ("DistinctParty") then
    if pyStrip (dp.attrD ("FixedRef") ("")) = ("") then none
    else pyInt (pyStrip (dp.attrD ("FixedRef") ("")))
  else none

/-- The FixedRef integers of the kept parties, in document order. -/
def party_entry_ids (root : Xml) : List Int :=
  match root.children.find? (fun c => c.tag = ("DistinctParties")) with
  | none => []
  | some dps => dps.children.filterMap keep_party_id

theorem party_fold_none (psub : RefMap) (smap : List (String × SanctionsData))
    (ats sv npt ftm cv : RefMap) (lm : List (String × AddressRec)) (dm : List (String × IdDoc))
    (pub : Option String) (ts : String) :
    ∀ (l : List Xml),
      l.foldl (party_step psub smap ats sv npt ftm cv lm dm pub ts) none = none := by
  intro l
  induction l with
  | nil => rfl
  | cons x xs ih =>
    rw [List.foldl_cons]
    exact ih

theorem party_fold_ids (psub : RefMap) (smap : List (String × SanctionsData))
    (ats sv npt ftm cv : RefMap) (lm : List (String × AddressRec)) (dm : List (String × IdDoc))
    (pub : Option String) (ts : String) :
    ∀ (l : List Xml) (acc recs : List SdnRecord),
      l.foldl (party_step psub smap ats sv npt ftm cv lm dm pub ts) (some acc) = some recs →
      recs.map (fun r => r.sdn_entry_id)
        = acc.map (fun r => r.sdn_entry_id) ++ l.filterMap keep_party_id := by
  intro l
  induction l with
  | nil =>
    intro acc recs h
    injection h with h2
    rw [← h2, List.filterMap_nil, List.append_nil]
  | cons dp rest ih =>
    intro acc recs h
    rw [List.foldl_cons] at h
    rw [List.filterMap_cons]
    by_cases ht : dp.tag = ("DistinctParty")
    · by_cases hfr : pyStrip (dp.attrD ("FixedRef") ("")) = ("")
      · have hstep : party_step psub smap ats sv npt ftm cv lm dm pub ts (some acc) dp
            = some acc := by
          unfold party_step
          dsimp only
          rw [if_pos ht, if_pos hfr]
        rw [hstep] at h
        have hkeep : keep_party_id dp = none := by
          unfold keep_party_id
          rw [if_pos ht, if_pos hfr]
        rw [hkeep]
        exact ih acc recs h
      · cases hint : pyInt (pyStrip (dp.attrD ("FixedRef") (""))) with
        | some n =>
          have hstep : party_step psub smap ats sv npt ftm cv lm dm pub ts (some acc) dp
              = some (acc ++ [emit_party psub smap ats sv npt ftm cv lm dm pub ts n dp]) := by
            unfold party_step
            dsimp only
            rw [if_pos ht, if_neg hfr, hint]
          rw [hstep] at h
          have hkeep : keep_party_id dp = some n := by
            unfold keep_party_id
            rw [if_pos ht, if_neg hfr, hint]
          rw [hkeep]
          have hrec := ih _ recs h
          rw [hrec, List.map_append]
          dsimp only [List.map]
          rw [emit_party_entry_id, List.append_assoc]
          rfl
        | none =>
          have hstep : party_step psub smap ats sv npt ftm cv lm dm pub ts (some acc) dp
              = none := by
            unfold party_step
            dsimp only
            rw [if_pos ht, if_neg hfr, hint]
          rw [hstep, party_fold_none] at h
          exact absurd h (by simp)
    · have hstep : party_step psub smap ats sv npt ftm cv lm dm pub ts (some acc) dp
          = some acc := by
        unfold party_step
        dsimp only
        rw [if_neg ht]
      rw [hstep] at h
      have hkeep : keep_party_id dp = none := by
        unfold keep_party_id
        rw [if_neg ht]
      rw [hkeep]
      exact ih acc recs h

def c5dp (fr : String) : Xml := Xml.mk ("DistinctParty") [(("FixedRef"), fr)] ("") []

def c5root : Xml := Xml.mk ("Sanctions") [] ("") [
  Xml.mk ("DistinctParties") [] ("") [c5dp ("7"), c5dp ("7"), c5dp ("0")]]

/-- C5 counterexample: a parse that completes with three rows whose
sdn_entry_ids are 7, 7, 0 — neither all positive nor pairwise distinct,
because the parser takes int(FixedRef) without validating positivity or
uniqueness. -/
theorem claim_C5_counterexample :
    (parse_ofac_advanced_xml c5root ("ts")).map (fun pr => pr.2.map (fun r => r.sdn_entry_id))
        = some [(7 : Int), 7, 0]
    ∧ ¬ ([(7 : Int), 7, 0].Nodup)
    ∧ ¬ (∀ i ∈ [(7 : Int), 7, 0], 0 < i) := by
  refine ⟨by decide, by decide, by decide⟩

/-- C5 (amended): a completed parse emits one row per kept DistinctParty
with sdn_entry_id exactly the parsed FixedRef integers in document
order; hence the ids are positive exactly when the document's FixedRefs
are, and pairwise distinct exactly when the document's FixedRefs are —
the parser itself validates neither. -/
theorem claim_C5 (root : Xml) (ts : String) (pd : Option String) (recs : List SdnRecord)
    (h : parse_ofac_advanced_xml root ts = some (pd, recs)) :
    recs.map (fun r => r.sdn_entry_id) = party_entry_ids root
    ∧ ((∀ i ∈ party_entry_ids root, 0 < i) → ∀ r ∈ recs, 0 < r.sdn_entry_id)
    ∧ ((party_entry_ids root).Nodup → (recs.map (fun r => r.sdn_entry_id)).Nodup) := by
  have hmain : recs.map (fun r => r.sdn_entry_id) = party_entry_ids root := by
    unfold parse_ofac_advanced_xml at h
    dsimp only at h
    unfold party_entry_ids
    cases hdps : root.children.find? (fun c => c.tag = ("DistinctParties")) with
    | none =>
      rw [hdps] at h
      dsimp only at h
      injection h with h2
      injection h2 with hpd hrecs
      rw [← hrecs]
      rfl
    | some dps =>
      rw [hdps] at h
      dsimp only at h
      cases hpp : parse_parties ((dlookup (_build_ref_maps root) ("PartySubTypeValues")).getD [])
          (_build_sanctions_map root ((dlookup (_build_ref_maps root) ("LegalBasisValues")).getD []))
          ((dlookup (_build_ref_maps root) ("AliasTypeValues")).getD [])
          ((dlookup (_build_ref_maps root) ("ScriptValues")).getD [])
          ((dlookup (_build_ref_maps root) ("NamePartTypeValues")).getD [])
          ((dlookup (_build_ref_maps root) ("FeatureTypeValues")).getD [])
          ((dlookup (_build_ref_maps root) ("CountryValues")).getD [])
          (_build_locations_map root ((dlookup (_build_ref_maps root) ("CountryValues")).getD [])
            ((dlookup (_build_ref_maps root) ("LocPartTypeValues")).getD []))
          (_build_id_docs_map root ((dlookup (_build_ref_maps root) ("CountryValues")).getD [])
            ((dlookup (_build_ref_maps root) ("IDRegDocTypeValues")).getD []))
          ((root.children.find? (fun c => c.tag = ("DateOfIssue"))).map (fun c => pyStrip c.text))
          ts dps.children with
      | none =>
        rw [hpp] at h
        exact absurd h (by simp)
      | some recs2 =>
        rw [hpp, Option.map_some'] at h
        injection h with h2
        injection h2 with hpd hrecs
        rw [← hrecs]
        unfold parse_parties at hpp
        have hres := party_fold_ids _ _ _ _ _ _ _ _ _ _ _ dps.children [] recs2 hpp
        rw [hres]
        rfl
  refine ⟨hmain, ?_, ?_⟩
  · intro hpos r hr
    have hm : r.sdn_entry_id ∈ recs.map (fun r => r.sdn_entry_id) :=
      List.mem_map_of_mem _ hr
    rw [hmain] at hm
    exact hpos _ hm
  · intro hnd
    rw [hmain]
    exact hnd

def c5wroot : Xml := Xml.mk ("Sanctions") [] ("") [
  Xml.mk ("DistinctParties") [] ("") [c5dp ("7"), c5dp ("8")]]

theorem claim_C5_witness :
    ([init_record 7 none ("ts"), init_record 8 none ("ts")].map (fun r => r.sdn_entry_id)
        = party_entry_ids c5wroot)
    ∧ 0 < (init_record 7 none ("ts")).sdn_entry_id
    ∧ 0 < (init_record 8 none ("ts")).sdn_entry_id
    ∧ ([init_record 7 none ("ts"), init_record 8 none ("ts")].map
        (fun r => r.sdn_entry_id)).Nodup := by
  have h := claim_C5 c5wroot ("ts") none
    [init_record 7 none ("ts"), init_record 8 none ("ts")] (by decide)
  have hpos := h.2.1 (by decide)
  exact ⟨h.1, hpos _ (by decide), hpos _ (by decide), h.2.2 (by decide)⟩
